import Mathlib

/-
Verification development for the llm-egress-guard pipeline.

Shallow embedding conventions:
* Python `str` is modeled as `List Char` (a sequence of Unicode scalar values).
* Python stdlib routines used by the code (urllib.parse.unquote, html.unescape,
  unicodedata.normalize/category, re, hashlib, base64, math.log) are modeled
  either by executable pure implementations (when small and deterministic) or as
  explicit function parameters, so theorems quantify over the stdlib behaviour
  they do not pin down, and concrete instantiations are supplied for evaluation.
* Wall-clock measurements (perf_counter latencies, the normalization time
  budget) are not part of the embedded state; the single control-flow decision
  that depends on the time budget is exposed as an explicit boolean parameter.
* Fallible Python code (functions that may raise) returns Except.
-/

set_option maxHeartbeats 1000000

namespace Guard

/-- Python str modeled as a list of Unicode scalar values. -/
abbrev PyStr := List Char

/-- Python regex `\s` / `str.isspace` on the ASCII range (the model restricts
whitespace classification to the ASCII whitespace characters; all texts handled
by the theorems below only use these). -/
def pyIsSpace (c : Char) : Bool :=
  c = ' ' || c = '\t' || c = '\n' || c = '\r' || c = Char.ofNat 0x0b || c = Char.ofNat 0x0c

/-- Python regex `\w` (word character), restricted to ASCII. -/
def isWordChar (c : Char) : Bool :=
  c.isAlphanum || c = '_'

/-- Python str.lower on a Lean String (character-wise ASCII model, evaluated
through the character list so it reduces in the kernel). -/
def pyLowerString (s : String) : String := String.mk (s.data.map Char.toLower)

/-- Python slicing text[a:b] for arbitrary integer bounds (negative indices
count from the end; out-of-range bounds clamp; never raises). -/
def pySlice (text : PyStr) (a b : Int) : PyStr :=
  let n : Int := text.length
  let lo : Int := if a < 0 then max 0 (n + a) else min a n
  let hi : Int := if b < 0 then max 0 (n + b) else min b n
  (text.take hi.toNat).drop lo.toNat

/-- Python slicing text[a:] . -/
def pySliceFrom (text : PyStr) (a : Int) : PyStr :=
  pySlice text a text.length

namespace Normalize

/- ---------------------------------------------------------------------------
app/normalize.py
--------------------------------------------------------------------------- -/

/-- ZERO_WIDTH_CHARS from app/normalize.py: U+200B..U+200F, U+2060, U+FEFF. -/
def ZERO_WIDTH_CHARS : List Char :=
  [Char.ofNat 0x200B, Char.ofNat 0x200C, Char.ofNat 0x200D, Char.ofNat 0x200E,
   Char.ofNat 0x200F, Char.ofNat 0x2060, Char.ofNat 0xFEFF]

/-- _ALLOWED_CONTROL_CHARS from app/normalize.py. -/
def ALLOWED_CONTROL_CHARS : List Char := ['\n', '\r', '\t']

/-- The Python stdlib text functions that app/normalize.py calls.  A value of
this structure fixes one behaviour of the external library; theorems either
quantify over it or instantiate it with the executable model `pyLib` below. -/
structure PyStdlib where
  /-- urllib.parse.unquote (total; the source catches its exceptions but the
  CPython implementation never raises on str input). -/
  unquote : PyStr → PyStr
  /-- html.unescape . -/
  unescape : PyStr → PyStr
  /-- unicodedata.normalize "NFKC" . -/
  nfkc : PyStr → PyStr
  /-- Whether unicodedata.category(c) starts with "C". -/
  categoryC : Char → Bool

/-- ASCII hex digit value, as accepted by `[0-9a-fA-F]`. -/
def hexVal (c : Char) : Option Nat :=
  if c.isDigit then some (c.toNat - '0'.toNat)
  else if 'a' ≤ c ∧ c ≤ 'f' then some (c.toNat - 'a'.toNat + 10)
  else if 'A' ≤ c ∧ c ≤ 'F' then some (c.toNat - 'A'.toNat + 10)
  else none

/-- Length of a match of the entity pattern `&(?:[a-zA-Z]+|#x?[0-9a-fA-F]+);`
at the head of the input (the input must start with the ampersand), if any. -/
def entityMatchLen (s : PyStr) : Option Nat :=
  match s with
  | '&' :: rest =>
    match rest with
    | '#' :: r2 =>
      match r2 with
      | 'x' :: r3 =>
        let run := r3.takeWhile (fun c => (hexVal c).isSome)
        if run.length > 0 ∧ (r3.drop run.length).head? = some ';' then
          some (3 + run.length + 1)
        else none
      | _ =>
        let run := r2.takeWhile (fun c => (hexVal c).isSome)
        if run.length > 0 ∧ (r2.drop run.length).head? = some ';' then
          some (2 + run.length + 1)
        else none
    | _ =>
      let run := rest.takeWhile Char.isAlpha
      if run.length > 0 ∧ (rest.drop run.length).head? = some ';' then
        some (1 + run.length + 1)
      else none
  | _ => none

/-- Worker for _count_html_entities: non-overlapping left-to-right count of
matches of _HTML_ENTITY_PATTERN, with explicit fuel for structural recursion
(fuel = length of the text suffices: every step consumes at least one char). -/
def countEntitiesGo : Nat → PyStr → Nat
  | 0, _ => 0
  | _, [] => 0
  | Nat.succ fuel, c :: rest =>
    if c = '&' then
      match entityMatchLen (c :: rest) with
      | some n => 1 + countEntitiesGo fuel ((c :: rest).drop n)
      | none => countEntitiesGo fuel rest
    else countEntitiesGo fuel rest

/-- _count_html_entities from app/normalize.py. -/
def count_html_entities (s : PyStr) : Nat :=
  countEntitiesGo s.length s

/-- Decode loop of _safe_url_decode: repeatedly unquote until a fixed point or
the pass cap; returns the final text and the number of passes taken. -/
def urlDecodeGo (lib : PyStdlib) : Nat → PyStr → Nat → PyStr × Nat
  | 0, v, passes => (v, passes)
  | Nat.succ fuel, v, passes =>
    let decoded := lib.unquote v
    if decoded = v then (v, passes)
    else urlDecodeGo lib fuel decoded (passes + 1)

/-- _safe_url_decode from app/normalize.py (max_passes = 2 at the call site);
returns (decoded, was_modified, anomalies).  The except-branch for a raising
unquote is unreachable in the model because `lib.unquote` is total. -/
def safe_url_decode (lib : PyStdlib) (value : PyStr) (maxPasses : Nat) :
    PyStr × Bool × List String :=
  let (final, passes) := urlDecodeGo lib maxPasses value 0
  let anomalies := if passes ≥ maxPasses then ["url_decode_max_passes_reached"] else []
  (final, decide (final ≠ value), anomalies)

/-- _html_unescape_known_entities from app/normalize.py; returns
(unescaped, was_modified, anomalies).  Anomaly strings drop the numeric
payloads of the Python f-strings (counts/lengths), keeping only the tag. -/
def html_unescape_known_entities (lib : PyStdlib) (value : PyStr)
    (maxEntities maxOutputLength : Nat) : PyStr × Bool × List String :=
  let entityCount := count_html_entities value
  if entityCount > maxEntities then
    (value, false, ["html_entity_count_exceeded"])
  else
    let unescaped := lib.unescape value
    if unescaped.length > maxOutputLength then
      (value, false, ["html_output_length_exceeded"])
    else
      let anomalies :=
        if unescaped ≠ value then
          let remaining := count_html_entities unescaped
          if remaining > 0 ∧ remaining < entityCount then ["double_encoding_detected"]
          else []
        else []
      (unescaped, decide (unescaped ≠ value), anomalies)

/-- _strip_zero_width_characters from app/normalize.py. -/
def strip_zero_width_characters (value : PyStr) : PyStr × Bool :=
  let stripped := value.filter (fun c => !(ZERO_WIDTH_CHARS.contains c))
  (stripped, decide (stripped ≠ value))

/-- _strip_control_characters from app/normalize.py: drop category-C characters
except \n, \r, \t; mutated iff some character was dropped. -/
def strip_control_characters (lib : PyStdlib) (value : PyStr) : PyStr × Bool :=
  let result := value.filter
    (fun c => ALLOWED_CONTROL_CHARS.contains c || !(lib.categoryC c))
  let mutated := value.any
    (fun c => !(ALLOWED_CONTROL_CHARS.contains c) && lib.categoryC c)
  (result, mutated)

/-- Case-insensitive literal match: `matchCI w s` succeeds when `s` starts with
the (lowercase) word `w` up to ASCII case, returning the rest of `s`. -/
def matchCI : List Char → PyStr → Option PyStr
  | [], s => some s
  | _, [] => none
  | w :: ws, c :: cs => if c.toLower = w then matchCI ws cs else none

/-- Word boundary test on the left of a match of a word made of word
characters: the preceding char (if any) must not be a word character. -/
def boundaryLeft (prev : Option Char) : Bool :=
  match prev with
  | none => true
  | some p => !(isWordChar p)

/-- Word boundary test on the right: the following char (if any) must not be a
word character. -/
def boundaryRight (s : PyStr) : Bool :=
  match s.head? with
  | none => true
  | some n => !(isWordChar n)

/-- re.sub of the obfuscation pattern
`(?i)(?:\[(?:W)\]|\((?:W)\)|\{(?:W)\}|\bW\b)` for a literal (lowercase) word W,
replacing each non-overlapping match by `repl`.  `prev` is the original text
character immediately before the current scan position (for the \b test);
fuel = length of the text (each step consumes at least one character). -/
def obfSubGo (w : List Char) (repl : Char) : Nat → Option Char → PyStr → PyStr
  | 0, _, s => s
  | _, _, [] => []
  | Nat.succ fuel, prev, c :: rest =>
    if c = '[' ∨ c = '(' ∨ c = '{' then
      match matchCI w rest with
      | some (d :: r2) =>
        if (c = '[' ∧ d = ']') ∨ (c = '(' ∧ d = ')') ∨ (c = '{' ∧ d = '}') then
          repl :: obfSubGo w repl fuel (some d) r2
        else c :: obfSubGo w repl fuel (some c) rest
      | _ => c :: obfSubGo w repl fuel (some c) rest
    else
      match matchCI w (c :: rest) with
      | some r2 =>
        if boundaryLeft prev ∧ boundaryRight r2 then
          repl :: obfSubGo w repl fuel (((c :: rest).take w.length).getLast?.getD c) r2
        else c :: obfSubGo w repl fuel (some c) rest
      | none => c :: obfSubGo w repl fuel (some c) rest

/-- One obfuscation-substitution pass (the _OBFUSCATION_AT/DOT_PATTERN subs). -/
def obfSub (w : List Char) (repl : Char) (s : PyStr) : PyStr :=
  obfSubGo w repl s.length none s

/-- Does skipping leading whitespace of the input reach `target`? -/
def followedByTargetAfterSpaces (target : Char) : PyStr → Bool
  | [] => false
  | c :: rest => if pyIsSpace c then followedByTargetAfterSpaces target rest else c = target

/-- re.sub of `\s*(?=target)` with the empty string: every maximal whitespace
run immediately preceding `target` is deleted (zero-length matches replace
nothing). -/
def stripSpaceBefore (target : Char) : PyStr → PyStr
  | [] => []
  | c :: rest =>
    if pyIsSpace c && followedByTargetAfterSpaces target rest then
      stripSpaceBefore target rest
    else c :: stripSpaceBefore target rest

/-- Worker for stripSpaceAfter; afterT records whether the nearest preceding
non-deleted character is `target` (through an already-deleted run). -/
def stripSpaceAfterGo (target : Char) : Bool → PyStr → PyStr
  | _, [] => []
  | afterT, c :: rest =>
    if pyIsSpace c then
      if afterT then stripSpaceAfterGo target true rest
      else c :: stripSpaceAfterGo target false rest
    else c :: stripSpaceAfterGo target (decide (c = target)) rest

/-- re.sub of `(?<=target)\s+` with the empty string: every whitespace run
immediately following `target` is deleted. -/
def stripSpaceAfter (target : Char) (s : PyStr) : PyStr :=
  stripSpaceAfterGo target false s

/-- _expand_obfuscations from app/normalize.py: the six re.sub passes in
source order. -/
def expand_obfuscations (value : PyStr) : PyStr × Bool :=
  let v1 := obfSub ['a', 't'] '@' value
  let v2 := obfSub ['d', 'o', 't'] '.' v1
  let v3 := stripSpaceBefore '@' v2
  let v4 := stripSpaceAfter '@' v3
  let v5 := stripSpaceBefore '.' v4
  let v6 := stripSpaceAfter '.' v5
  (v6, decide (v6 ≠ value))

/-- Python `"\r\n" in value`. -/
def containsCRLF : PyStr → Bool
  | '\r' :: '\n' :: _ => true
  | _ :: rest => containsCRLF rest
  | [] => false

/-- Python `value.replace("\r\n", "\n")`: single left-to-right pass over
non-overlapping occurrences. -/
def replaceCRLF : PyStr → PyStr
  | '\r' :: '\n' :: rest => '\n' :: replaceCRLF rest
  | c :: rest => c :: replaceCRLF rest
  | [] => []

/-- NormalizationResult from app/normalize.py. -/
structure NormalizationResult where
  text : PyStr
  steps : List String
  entity_count : Nat
  anomalies : List String
  deriving DecidableEq

/-- normalize_text from app/normalize.py.  `budgetExceeded` stands for the
wall-clock test `elapsed > _TIME_BUDGET_SECONDS` before the HTML step (the only
control-flow decision that depends on real time); the final elapsed-time
anomaly append, which never alters the text or steps, is elided. -/
def normalize_text (lib : PyStdlib) (budgetExceeded : Bool) (maxUnescape : Nat)
    (value : PyStr) : NormalizationResult :=
  -- Step 1: URL decode
  let r1 := safe_url_decode lib value 2
  let v1 := r1.1
  let steps1 : List String := if r1.2.1 then ["url_decode"] else []
  -- Step 2: HTML entity decode (gated by the time budget)
  let r2 :=
    if budgetExceeded then
      (0, v1, ([] : List String), ["time_budget_exceeded_at_html_unescape"])
    else
      let ec := count_html_entities v1
      let h := html_unescape_known_entities lib v1 maxUnescape (maxUnescape * 2)
      (ec, h.1, if h.2.1 then ["html_unescape"] else [], h.2.2)
  let entityCount := r2.1
  let v2 := r2.2.1
  let steps2 := r2.2.2.1
  let anoms2 := r2.2.2.2
  -- Step 3: Unicode NFKC normalization
  let v3 := lib.nfkc v2
  let steps3 : List String := if v3 = v2 then [] else ["nfkc"]
  -- Step 4: expand obfuscations
  let r4 := expand_obfuscations v3
  let v4 := r4.1
  let steps4 : List String := if r4.2 then ["expand_obfuscation"] else []
  -- Step 5: strip zero-width characters
  let r5 := strip_zero_width_characters v4
  let v5 := r5.1
  let steps5 : List String := if r5.2 then ["strip_zero_width"] else []
  -- Step 6: strip control characters
  let r6 := strip_control_characters lib v5
  let v6 := r6.1
  let steps6 : List String := if r6.2 then ["strip_control"] else []
  -- Newline normalization: CRLF -> LF
  let v7 := if containsCRLF v6 then replaceCRLF v6 else v6
  let steps7 : List String := if containsCRLF v6 then ["normalize_newlines"] else []
  { text := v7
    steps := steps1 ++ steps2 ++ steps3 ++ steps4 ++ steps5 ++ steps6 ++ steps7
    entity_count := entityCount
    anomalies := r1.2.2 ++ anoms2 }

/- ---------------------------------------------------------------------------
Executable model of the stdlib functions (urllib.parse.unquote, html.unescape,
unicodedata) used to instantiate PyStdlib for concrete evaluation.
--------------------------------------------------------------------------- -/

/-- Collect the maximal run of %hh escapes (hh = two hex digits) at the head of
the input, returning the decoded byte values and the rest of the text. -/
def pctRun : PyStr → List Nat × PyStr
  | '%' :: h1 :: h2 :: rest =>
    match hexVal h1, hexVal h2 with
    | some a, some b =>
      let r := pctRun rest
      ((a * 16 + b) :: r.1, r.2)
    | _, _ => ([], '%' :: h1 :: h2 :: rest)
  | s => ([], s)

/-- UTF-8 decoding with the replacement character for invalid sequences
(exact on valid UTF-8; on invalid input it emits one U+FFFD per rejected lead
byte, an adequate model of the errors="replace" handler for the inputs used
in this development, none of which contain percent escapes). -/
def utf8DecodeGo : Nat → List Nat → PyStr
  | 0, _ => []
  | _, [] => []
  | Nat.succ fuel, b1 :: rest =>
    if b1 < 0x80 then Char.ofNat b1 :: utf8DecodeGo fuel rest
    else if 0xC2 ≤ b1 ∧ b1 ≤ 0xDF then
      match rest with
      | b2 :: r2 =>
        if 0x80 ≤ b2 ∧ b2 ≤ 0xBF then
          Char.ofNat ((b1 - 0xC0) * 64 + (b2 - 0x80)) :: utf8DecodeGo fuel r2
        else Char.ofNat 0xFFFD :: utf8DecodeGo fuel rest
      | [] => [Char.ofNat 0xFFFD]
    else if 0xE0 ≤ b1 ∧ b1 ≤ 0xEF then
      match rest with
      | b2 :: b3 :: r3 =>
        if (0x80 ≤ b2 ∧ b2 ≤ 0xBF) ∧ (0x80 ≤ b3 ∧ b3 ≤ 0xBF) ∧
           (b1 ≠ 0xE0 ∨ 0xA0 ≤ b2) ∧ (b1 ≠ 0xED ∨ b2 ≤ 0x9F) then
          Char.ofNat ((b1 - 0xE0) * 4096 + (b2 - 0x80) * 64 + (b3 - 0x80)) ::
            utf8DecodeGo fuel r3
        else Char.ofNat 0xFFFD :: utf8DecodeGo fuel rest
      | _ => Char.ofNat 0xFFFD :: utf8DecodeGo fuel rest
    else if 0xF0 ≤ b1 ∧ b1 ≤ 0xF4 then
      match rest with
      | b2 :: b3 :: b4 :: r4 =>
        if (0x80 ≤ b2 ∧ b2 ≤ 0xBF) ∧ (0x80 ≤ b3 ∧ b3 ≤ 0xBF) ∧
           (0x80 ≤ b4 ∧ b4 ≤ 0xBF) ∧
           (b1 ≠ 0xF0 ∨ 0x90 ≤ b2) ∧ (b1 ≠ 0xF4 ∨ b2 ≤ 0x8F) then
          Char.ofNat ((b1 - 0xF0) * 262144 + (b2 - 0x80) * 4096 +
            (b3 - 0x80) * 64 + (b4 - 0x80)) :: utf8DecodeGo fuel r4
        else Char.ofNat 0xFFFD :: utf8DecodeGo fuel rest
      | _ => Char.ofNat 0xFFFD :: utf8DecodeGo fuel rest
    else Char.ofNat 0xFFFD :: utf8DecodeGo fuel rest

/-- UTF-8 decode entry point (fuel = byte count). -/
def utf8DecodeReplace (bs : List Nat) : PyStr := utf8DecodeGo bs.length bs

/-- Worker for pyUnquote (fuel = text length: each step consumes ≥ 1 char). -/
def pyUnquoteGo : Nat → PyStr → PyStr
  | 0, s => s
  | _, [] => []
  | Nat.succ fuel, c :: rest =>
    if c = '%' then
      let r := pctRun (c :: rest)
      if r.1.isEmpty then c :: pyUnquoteGo fuel rest
      else utf8DecodeReplace r.1 ++ pyUnquoteGo fuel r.2
    else c :: pyUnquoteGo fuel rest

/-- Executable model of urllib.parse.unquote: maximal runs of %hh escapes are
decoded as UTF-8 byte sequences with replacement; other text unchanged. -/
def pyUnquote (s : PyStr) : PyStr := pyUnquoteGo s.length s

/-- Numeric value of a run of decimal digits. -/
def decRunVal (run : PyStr) : Nat :=
  run.foldl (fun acc c => acc * 10 + (c.toNat - '0'.toNat)) 0

/-- Numeric value of a run of hex digits. -/
def hexRunVal (run : PyStr) : Nat :=
  run.foldl (fun acc c => acc * 16 + ((hexVal c).getD 0)) 0

/-- The five core named character references, with trailing semicolon. -/
def namedEntity : PyStr → Option (Char × PyStr)
  | 'a' :: 'm' :: 'p' :: ';' :: r => some ('&', r)
  | 'l' :: 't' :: ';' :: r => some ('<', r)
  | 'g' :: 't' :: ';' :: r => some ('>', r)
  | 'q' :: 'u' :: 'o' :: 't' :: ';' :: r => some ('"', r)
  | 'a' :: 'p' :: 'o' :: 's' :: ';' :: r => some (Char.ofNat 0x27, r)
  | _ => none

/-- Worker for pyUnescape (fuel = text length). -/
def pyUnescapeGo : Nat → PyStr → PyStr
  | 0, s => s
  | _, [] => []
  | Nat.succ fuel, c :: rest =>
    if c = '&' then
      match rest with
      | '#' :: r2 =>
        match r2 with
        | 'x' :: r3 =>
          let run := r3.takeWhile (fun d => (hexVal d).isSome)
          if run.length > 0 ∧ (r3.drop run.length).head? = some ';' then
            Char.ofNat (hexRunVal run) :: pyUnescapeGo fuel (r3.drop (run.length + 1))
          else c :: pyUnescapeGo fuel rest
        | _ =>
          let run := r2.takeWhile Char.isDigit
          if run.length > 0 ∧ (r2.drop run.length).head? = some ';' then
            Char.ofNat (decRunVal run) :: pyUnescapeGo fuel (r2.drop (run.length + 1))
          else c :: pyUnescapeGo fuel rest
      | _ =>
        match namedEntity rest with
        | some (ch, r2) => ch :: pyUnescapeGo fuel r2
        | none => c :: pyUnescapeGo fuel rest
    else c :: pyUnescapeGo fuel rest

/-- Executable model of html.unescape, covering decimal/hex numeric references
and the five core named entities (with semicolon); in particular it is the
identity on text without an ampersand, as html.unescape is. -/
def pyUnescape (s : PyStr) : PyStr := pyUnescapeGo s.length s

/-- Character-wise model of NFKC covering the fullwidth ASCII block (the
decompositions exercised here); identity elsewhere.  Exact on inputs without
composition interactions. -/
def nfkcChar (c : Char) : PyStr :=
  if 0xFF01 ≤ c.toNat ∧ c.toNat ≤ 0xFF5E then [Char.ofNat (c.toNat - 0xFEE0)]
  else [c]

/-- Executable model of unicodedata.normalize "NFKC". -/
def pyNFKC (s : PyStr) : PyStr := s.flatMap nfkcChar

/-- Executable model of the test `unicodedata.category(c).startswith("C")`:
covers the Cc block and the common Cf characters (exact on the inputs of the
concrete theorems below). -/
def pyCategoryC (c : Char) : Bool :=
  c.toNat < 0x20 || c.toNat = 0x7F || (0x80 ≤ c.toNat && c.toNat ≤ 0x9F) ||
  c.toNat = 0xAD || ZERO_WIDTH_CHARS.contains c ||
  (0x202A ≤ c.toNat && c.toNat ≤ 0x202E) || (0x2066 ≤ c.toNat && c.toNat ≤ 0x2069)

/-- Concrete stdlib instantiation used by the closed evaluation theorems. -/
def pyLib : PyStdlib :=
  { unquote := pyUnquote
    unescape := pyUnescape
    nfkc := pyNFKC
    categoryC := pyCategoryC }

end Normalize

/- ---------------------------------------------------------------------------
Shared model of Python dict-valued finding details and of the re module.
--------------------------------------------------------------------------- -/

/-- A value stored in a finding's detail dict.  Detectors store strings, the
two-element span list of ints, ints, rationals (for the float entropy values,
modeled exactly as rationals), booleans, and None. -/
inductive DVal where
  | str (s : String)
  | span (a b : Int)
  | int (n : Int)
  | rat (q : Rat)
  | bool (b : Bool)
  | none
  deriving DecidableEq

/-- A Python dict with string keys, modeled as an insertion-ordered
association list with at most one entry per key. -/
abbrev Detail := List (String × DVal)

/-- dict.get . -/
def dget (d : Detail) (k : String) : Option DVal :=
  (d.find? (fun p => p.1 = k)).map (fun p => p.2)

/-- dict assignment d[k] = v (overwrite in place, else append). -/
def dset (d : Detail) (k : String) (v : DVal) : Detail :=
  if (d.find? (fun p => p.1 = k)).isSome then
    d.map (fun p => if p.1 = k then (k, v) else p)
  else d ++ [(k, v)]

/-- dict.update . -/
def dupdate (d : Detail) (extra : Detail) : Detail :=
  extra.foldl (fun acc p => dset acc p.1 p.2) d

/-- dict.setdefault . -/
def dsetdefault (d : Detail) (k : String) (v : DVal) : Detail :=
  if (d.find? (fun p => p.1 = k)).isSome then d else d ++ [(k, v)]

/-- A single match produced by re.finditer: match.group(0), match.start() and
match.end() (named stop to avoid the keyword). -/
structure ReMatch where
  value : PyStr
  start : Nat
  stop : Nat
  deriving DecidableEq

/-- The compiled regular expressions the detectors and the parser use, named
after the module-level constants in the source; `custom s` is
re.compile(rule.pattern, re.IGNORECASE) for a rule-supplied pattern string. -/
inductive Pat where
  | emailRegex | ibanTrRegex | ibanDeRegex | tcknRegex | panRegex | ipv4Regex
  | phoneTr | phoneEn | phoneDe | phoneFr | phoneEs | phoneIt | phonePt
  | phoneHi | phoneZh | phoneRu | phoneGeneric
  | jwtRegex | awsAccessKeyRegex | awsSecretKeyRegex | openaiApiKeyRegex
  | githubTokenRegex | slackTokenRegex | stripeTokenRegex | twilioTokenRegex
  | azureSasRegex | pemBlockRegex | gcpSaRegex | genericTokenRegex
  | ipUrlRegex | dataUrlRegex | executableUrlRegex | credentialUrlRegex
  | httpUrlRegex | base64BlobRegex | hexBlobRegex
  | ipInUrlRegex | hostOfUrlRegex
  | curlPipeRegex | wgetPipeRegex | powershellEncRegex | invokeWebrequestRegex
  | powershellIwrRegex | rmRfRegex | regAddRegex | certutilRegex
  | mshtaRegex | rundll32Regex
  | custom (s : String)
  deriving DecidableEq

/-- The behaviour of the re module on the patterns above: finditer enumerates
non-overlapping matches in order; search is the boolean .search() hit used for
the (case-insensitively compiled) allowlist regexes; searchGroup extracts the
single relevant capture group (used by _ip_in_url and _extract_hostname);
compiles tells whether re.compile succeeds on a rule-supplied pattern. -/
structure RegexEngine where
  finditer : Pat → PyStr → List ReMatch
  search : String → PyStr → Bool
  searchGroup : Pat → PyStr → Option PyStr
  compiles : String → Bool

/-- A regex engine is span-well-formed when every match satisfies
start ≤ end ≤ len(text) and group(0) is the matched slice. -/
def RegexEngine.SpanWF (eng : RegexEngine) : Prop :=
  ∀ pat text, ∀ m ∈ eng.finditer pat text,
    m.start ≤ m.stop ∧ m.stop ≤ text.length ∧
    m.value = (text.drop m.start).take (m.stop - m.start)

/-- The external functions detectors call besides re: hashlib.sha256 hexdigest,
the Shannon-entropy float computations (modeled as exact rationals), and
whether base64.urlsafe_b64decode succeeds on already-padded input. -/
structure DetectorEnv where
  eng : RegexEngine
  sha256hex : PyStr → String
  entropy : PyStr → Rat
  b64decodeOk : PyStr → Bool

namespace Policy

/- ---------------------------------------------------------------------------
app/policy.py
--------------------------------------------------------------------------- -/

/-- DEFAULT_RULE_WEIGHT from app/policy.py. -/
def DEFAULT_RULE_WEIGHT : Int := 10

/-- AllowlistEntry from app/policy.py.  The Python sets of constraint strings
are modeled as lists (only emptiness and membership are used); the compiled
case-insensitive regex is kept as its pattern string and evaluated through the
engine. -/
structure AllowlistEntry where
  value : Option PyStr
  regex : Option String
  rule_types : List String
  rule_kinds : List String
  rule_ids : List String
  tenants : List PyStr
  deriving DecidableEq

/-- AllowlistEntry.matches from app/policy.py. -/
def AllowlistEntry.matches (eng : RegexEngine) (e : AllowlistEntry)
    (candidate : PyStr) (rule_type : String) (rule_kind : Option String)
    (rule_id : String) (tenant : Option PyStr) : Bool :=
  if !e.rule_types.isEmpty && !(e.rule_types.contains rule_type) then false
  else if !e.rule_kinds.isEmpty &&
      (match rule_kind with
       | Option.none => true
       | Option.some k => !(e.rule_kinds.contains k)) then false
  else if !e.rule_ids.isEmpty && !(e.rule_ids.contains rule_id) then false
  else if !e.tenants.isEmpty &&
      (match tenant with
       | Option.none => true
       | Option.some t => !(e.tenants.contains t)) then false
  else if (match e.value with
       | Option.none => false
       | Option.some v => candidate = v) then true
  else if (match e.regex with
       | Option.none => false
       | Option.some r => eng.search r candidate) then true
  else false

/-- PolicyRule from app/policy.py. -/
structure PolicyRule where
  id : String
  type : String
  action : String
  kind : Option String
  pattern : Option String
  severity : String
  risk_weight : Int
  safe_message : Option String
  deriving DecidableEq

/-- ContextSettings from app/policy.py. -/
structure ContextSettings where
  enabled : Bool
  code_block_penalty : Int
  explain_only_penalty : Int
  link_context_bonus : Int
  deriving DecidableEq

/-- PolicyDefinition from app/policy.py (the policy_id and tiers strings are
irrelevant to evaluation but kept for shape). -/
structure PolicyDefinition where
  policy_id : String
  tiers : String
  allowlist : List AllowlistEntry
  rules : List PolicyRule
  context_settings : ContextSettings
  deriving DecidableEq

/-- PolicyDefinition.iter_rules . -/
def PolicyDefinition.iter_rules (p : PolicyDefinition) (t : String) : List PolicyRule :=
  p.rules.filter (fun r => r.type = t)

/-- PolicyDefinition.rules_by_id lookup: the dict comprehension keeps, for each
id, the LAST rule carrying it, hence the reversed find. -/
def PolicyDefinition.rules_by_id (p : PolicyDefinition) (rid : String) :
    Option PolicyRule :=
  p.rules.reverse.find? (fun r => r.id = rid)

/-- PolicyDefinition.is_allowlisted : true iff some allowlist entry matches. -/
def PolicyDefinition.is_allowlisted (eng : RegexEngine) (p : PolicyDefinition)
    (candidate : PyStr) (rule : PolicyRule) (tenant : Option PyStr) : Bool :=
  p.allowlist.any (fun e =>
    e.matches eng candidate rule.type rule.kind rule.id tenant)

/-- PolicyDecision from app/policy.py. -/
structure PolicyDecision where
  blocked : Bool
  risk_score : Int
  applied_rules : List String
  safe_message_key : Option String
  deriving DecidableEq

/-- Python truthiness of an optional string (None and "" are falsy). -/
def pyTruthyStr (o : Option String) : Bool :=
  match o with
  | Option.none => false
  | Option.some s => s ≠ ""

/-- Python `a or b` on optional strings. -/
def pyOrStr (a b : Option String) : Option String :=
  if pyTruthyStr a then a else b

end Policy

/-- Finding from app/pipeline.py (context and explain_only carry the dataclass
defaults "text" and False until the annotation pass). -/
structure Finding where
  rule_id : String
  action : String
  type : String
  detail : Detail
  context : String
  explain_only : Bool
  deriving DecidableEq

namespace Policy

/-- _apply_context_adjustment from app/policy.py.  The getattr defaults are
always overridden because Finding carries all three attributes. -/
def apply_context_adjustment (f : Finding) (base_risk : Int)
    (cs : ContextSettings) : Int :=
  if !cs.enabled then base_risk
  else
    let a1 := if f.explain_only ∧ f.type = "cmd" then
        base_risk - cs.explain_only_penalty else base_risk
    let a2 := if f.context = "code" ∧ !f.explain_only then
        a1 - cs.code_block_penalty else a1
    let a3 := if f.context = "link" ∧ f.type = "url" then
        a2 + cs.link_context_bonus else a2
    max a3 0

/-- The evaluation loop state of evaluate from app/policy.py. -/
structure EvalState where
  blocked : Bool
  applied_rules : List String
  safe_message_key : Option String
  risk_score : Int
  deriving DecidableEq

/-- One iteration of the finding loop in evaluate from app/policy.py. -/
def evalStep (p : PolicyDefinition) (allow_explain_only_bypass : Bool)
    (st : EvalState) (f : Finding) : EvalState :=
  let st := { st with applied_rules := st.applied_rules ++ [f.rule_id] }
  match p.rules_by_id f.rule_id with
  | Option.none => { st with risk_score := st.risk_score + DEFAULT_RULE_WEIGHT }
  | Option.some rule =>
    let base_weight := max rule.risk_weight 0
    let adjusted_weight := apply_context_adjustment f base_weight p.context_settings
    let st := { st with risk_score := st.risk_score + adjusted_weight }
    if rule.action = "block" then
      -- the two `continue`s of the opt-in explain-only bypass
      if allow_explain_only_bypass ∧ f.explain_only ∧
          (f.type = "cmd" ∨ adjusted_weight < DEFAULT_RULE_WEIGHT / 2) then st
      else
        { st with blocked := true
                  safe_message_key := pyOrStr st.safe_message_key rule.safe_message }
    else if pyTruthyStr rule.safe_message ∧ st.safe_message_key = Option.none then
      { st with safe_message_key := rule.safe_message }
    else st

/-- evaluate from app/policy.py (the deleted metadata and parsed_content
parameters are omitted). -/
def evaluate (p : PolicyDefinition) (findings : List Finding)
    (allow_explain_only_bypass : Bool) : PolicyDecision :=
  let st := findings.foldl (evalStep p allow_explain_only_bypass)
    { blocked := false, applied_rules := [], safe_message_key := Option.none,
      risk_score := 0 }
  let risk_score := min st.risk_score 100
  let key := if st.blocked ∧ st.safe_message_key = Option.none then
      Option.some "blocked" else st.safe_message_key
  { blocked := st.blocked, risk_score := risk_score,
    applied_rules := st.applied_rules, safe_message_key := key }

/-- The whole-decision condition under which a single finding sets blocked in
evaluate: its rule is found, the rule action is block, and the opt-in
explain-only bypass is not granted. -/
def blocksFinding (p : PolicyDefinition) (allow_explain_only_bypass : Bool)
    (f : Finding) : Bool :=
  match p.rules_by_id f.rule_id with
  | Option.none => false
  | Option.some rule =>
    rule.action = "block" ∧
    ¬(allow_explain_only_bypass ∧ f.explain_only ∧
      (f.type = "cmd" ∨
        apply_context_adjustment f (max rule.risk_weight 0) p.context_settings <
          DEFAULT_RULE_WEIGHT / 2))

/-- The risk-score contribution of a single finding in evaluate. -/
def contribution (p : PolicyDefinition) (f : Finding) : Int :=
  match p.rules_by_id f.rule_id with
  | Option.none => DEFAULT_RULE_WEIGHT
  | Option.some rule =>
    apply_context_adjustment f (max rule.risk_weight 0) p.context_settings

end Policy

namespace Detectors

/- ---------------------------------------------------------------------------
app/detectors/common.py
--------------------------------------------------------------------------- -/

/-- Request metadata, reduced to its string entries (only the "tenant" key is
read by the detector layer; str() of a string value is the identity). -/
abbrev Metadata := List (String × PyStr)

/-- The tenant extraction in common.is_allowlisted: metadata truthy and
metadata.get("tenant") not None. -/
def tenantOf (md : Metadata) : Option PyStr :=
  (md.find? (fun p => p.1 = "tenant")).map (fun p => p.2)

/-- MASK_PLACEHOLDER from app/detectors/common.py. -/
def MASK_PLACEHOLDER : String := "[REDACTED]"

/-- URL_PLACEHOLDER from app/detectors/common.py. -/
def URL_PLACEHOLDER : String := "[redacted-url]"

/-- CMD_PLACEHOLDER from app/detectors/common.py. -/
def CMD_PLACEHOLDER : String := "[command-blocked]"

/-- hash_snippet from app/detectors/common.py. -/
def hash_snippet (env : DetectorEnv) (value : PyStr) : String :=
  "sha256:" ++ env.sha256hex value

/-- truncate_preview from app/detectors/common.py. -/
def truncate_preview (value : PyStr) (limit : Nat) : PyStr :=
  if value.length ≤ limit then value
  else value.take limit ++ ['.', '.', '.']

/-- is_allowlisted from app/detectors/common.py. -/
def is_allowlisted (eng : RegexEngine) (policy : Policy.PolicyDefinition)
    (rule : Policy.PolicyRule) (candidate : PyStr) (md : Metadata) : Bool :=
  policy.is_allowlisted eng candidate rule (tenantOf md)

/-- A (value, span, extra_detail) tuple as produced by the per-kind scanners
and consumed by build_findings. -/
abbrev MatchTuple := PyStr × (Nat × Nat) × Detail

/-- build_findings from app/detectors/common.py: skip allowlisted candidates,
otherwise build the base detail (span, kind, snippet_hash), merge the scanner's
extra detail, default the rule_id, and emit a Finding with the rule's id,
action and type. -/
def build_findings (env : DetectorEnv) (policy : Policy.PolicyDefinition)
    (rule : Policy.PolicyRule) (ms : List MatchTuple) (md : Metadata) :
    List Finding :=
  match ms with
  | [] => []
  | (value, span, extra) :: rest =>
    if is_allowlisted env.eng policy rule value md then
      build_findings env policy rule rest md
    else
      let base : Detail :=
        [("span", DVal.span (Int.ofNat span.1) (Int.ofNat span.2)),
         ("kind", match rule.kind with
                  | Option.none => DVal.none
                  | Option.some k => DVal.str k),
         ("snippet_hash", DVal.str (hash_snippet env value))]
      let detail := dsetdefault (dupdate base extra) "rule_id" (DVal.str rule.id)
      { rule_id := rule.id, action := rule.action, type := rule.type,
        detail := detail, context := "text", explain_only := false } ::
        build_findings env policy rule rest md

/-- _pad_base64 from app/detectors/common.py (also secrets._pad_base64). -/
def pad_base64 (segment : PyStr) : PyStr :=
  let padding := segment.length % 4
  if padding ≠ 0 then segment ++ List.replicate (4 - padding) '='
  else segment

end Detectors

namespace Pii

open Detectors

/- ---------------------------------------------------------------------------
app/detectors/pii.py
--------------------------------------------------------------------------- -/

/-- PHONE_PATTERNS from app/detectors/pii.py (pattern names only; the regexes
live in the engine). -/
def PHONE_PATTERNS : List (String × Pat) :=
  [("phone_tr", Pat.phoneTr), ("phone_en", Pat.phoneEn), ("phone_de", Pat.phoneDe),
   ("phone_fr", Pat.phoneFr), ("phone_es", Pat.phoneEs), ("phone_it", Pat.phoneIt),
   ("phone_pt", Pat.phonePt), ("phone_hi", Pat.phoneHi), ("phone_zh", Pat.phoneZh),
   ("phone_ru", Pat.phoneRu), ("phone", Pat.phoneGeneric)]

/-- _mask_email from app/detectors/pii.py (value.partition("@")). -/
def mask_email (value : PyStr) : PyStr :=
  let localPart := value.takeWhile (fun c => c ≠ '@')
  let domain := (value.dropWhile (fun c => c ≠ '@')).drop 1
  if localPart.isEmpty then MASK_PLACEHOLDER.data
  else if localPart.length ≤ 2 then localPart.take 1 ++ ['*', '@'] ++ domain
  else localPart.take 1 ++ ['*', '*', '*'] ++ localPart.drop (localPart.length - 1) ++
    ['@'] ++ domain

/-- _scan_emails from app/detectors/pii.py. -/
def scan_emails (env : DetectorEnv) (text : PyStr) : List MatchTuple :=
  (env.eng.finditer Pat.emailRegex text).map (fun m =>
    let masked := String.mk (mask_email m.value)
    (m.value, (m.start, m.stop),
      [("masked", DVal.str masked), ("replacement", DVal.str masked),
       ("preview", DVal.str masked)]))

/-- _scan_phone from app/detectors/pii.py (re.sub(r"\D", "", raw) keeps the
digits; the model restricts \d to ASCII digits). -/
def scan_phone (env : DetectorEnv) (text : PyStr) (pattern_key : String) :
    List MatchTuple :=
  let pat := (((PHONE_PATTERNS.find? (fun p => p.1 = pattern_key)).map
    (fun p => p.2)).getD Pat.phoneGeneric)
  (env.eng.finditer pat text).filterMap (fun m =>
    let digits := m.value.filter Char.isDigit
    if digits.length < 9 ∨ digits.length > 15 then Option.none
    else
      let masked : PyStr :=
        if digits.length > 2 then ['*', '*', '*'] ++ digits.drop (digits.length - 2)
        else MASK_PLACEHOLDER.data
      Option.some (m.value, (m.start, m.stop),
        [("masked", DVal.str (String.mk masked)),
         ("replacement", DVal.str (String.mk masked)),
         ("preview", DVal.str (String.mk masked)),
         ("pattern", DVal.str pattern_key)]))

/-- _scan_iban from app/detectors/pii.py. -/
def scan_iban (env : DetectorEnv) (text : PyStr) (pat : Pat) (country : String) :
    List MatchTuple :=
  (env.eng.finditer pat text).filterMap (fun m =>
    let normalized := (m.value.filter (fun c => !(pyIsSpace c))).map Char.toUpper
    let expected_length : Nat := if country = "TR" then 26 else 22
    if normalized.length ≠ expected_length ∨ ¬(country.data.isPrefixOf normalized) then
      Option.none
    else
      let masked : PyStr := country.data ++ List.replicate 16 '*' ++
        normalized.drop (normalized.length - 4)
      Option.some (m.value, (m.start, m.stop),
        [("masked", DVal.str (String.mk masked)),
         ("replacement", DVal.str (String.mk masked)),
         ("preview", DVal.str (String.mk masked))]))

/-- _is_valid_tckn from app/detectors/pii.py. -/
def is_valid_tckn (value : PyStr) : Bool :=
  if value.length ≠ 11 ∨ ¬(value.all Char.isDigit) ∨ value.head? = some '0' then false
  else
    let digits : List Int := value.map (fun c => ((c.toNat : Int) - ('0'.toNat : Int)))
    let d : Nat → Int := fun i => digits.getD i 0
    let odd_sum := d 0 + d 2 + d 4 + d 6 + d 8
    let even_sum := d 1 + d 3 + d 5 + d 7
    let tenth := (odd_sum * 7 - even_sum) % 10
    d 9 = tenth ∧ d 10 = (digits.take 10).sum % 10

/-- _scan_tckn from app/detectors/pii.py. -/
def scan_tckn (env : DetectorEnv) (text : PyStr) : List MatchTuple :=
  (env.eng.finditer Pat.tcknRegex text).filterMap (fun m =>
    if ¬(is_valid_tckn m.value) then Option.none
    else
      let masked : PyStr := List.replicate 8 '*' ++ m.value.drop (m.value.length - 3)
      Option.some (m.value, (m.start, m.stop),
        [("masked", DVal.str (String.mk masked)),
         ("replacement", DVal.str (String.mk masked)),
         ("preview", DVal.str (String.mk masked))]))

/-- _passes_luhn from app/detectors/pii.py. -/
def passes_luhn (value : PyStr) : Bool :=
  let digits := (value.filter Char.isDigit).map (fun c => c.toNat - '0'.toNat)
  let parity := digits.length % 2
  let checksum := digits.enum.foldl (fun acc p =>
    let dd := if p.1 % 2 = parity then
        (if p.2 * 2 > 9 then p.2 * 2 - 9 else p.2 * 2) else p.2
    acc + dd) 0
  checksum % 10 = 0

/-- _scan_pan from app/detectors/pii.py. -/
def scan_pan (env : DetectorEnv) (text : PyStr) : List MatchTuple :=
  (env.eng.finditer Pat.panRegex text).filterMap (fun m =>
    if ¬(passes_luhn m.value) then Option.none
    else
      let masked : PyStr := "**** **** **** ".data ++ m.value.drop (m.value.length - 4)
      Option.some (m.value, (m.start, m.stop),
        [("masked", DVal.str (String.mk masked)),
         ("replacement", DVal.str (String.mk masked)),
         ("preview", DVal.str (String.mk masked))]))

/-- _scan_ipv4 from app/detectors/pii.py. -/
def scan_ipv4 (env : DetectorEnv) (text : PyStr) : List MatchTuple :=
  (env.eng.finditer Pat.ipv4Regex text).map (fun m =>
    (m.value, (m.start, m.stop),
      [("masked", DVal.str "[ip-redacted]"),
       ("replacement", DVal.str "[ip-redacted]"),
       ("preview", DVal.str (String.mk m.value))]))

/-- The kind dispatch of pii.scan; Option.none is the `continue` for an
unrecognized kind. -/
def runScanner (env : DetectorEnv) (text : PyStr) (rule : Policy.PolicyRule) :
    Option (List MatchTuple) :=
  if rule.kind = Option.some "email" then Option.some (scan_emails env text)
  else if (match rule.kind with
           | Option.some k => k.startsWith "phone"
           | Option.none => false) then
    Option.some (scan_phone env text (rule.kind.getD ""))
  else if rule.kind = Option.some "iban_tr" then
    Option.some (scan_iban env text Pat.ibanTrRegex "TR")
  else if rule.kind = Option.some "iban_de" then
    Option.some (scan_iban env text Pat.ibanDeRegex "DE")
  else if rule.kind = Option.some "tckn" then Option.some (scan_tckn env text)
  else if rule.kind = Option.some "pan" then Option.some (scan_pan env text)
  else if rule.kind = Option.some "ipv4" then Option.some (scan_ipv4 env text)
  else Option.none

/-- The per-rule loop of pii.scan from app/detectors/pii.py. -/
def scanRules (env : DetectorEnv) (text : PyStr) (policy : Policy.PolicyDefinition)
    (md : Metadata) : List Policy.PolicyRule → List Finding
  | [] => []
  | rule :: rest =>
    match runScanner env text rule with
    | Option.none => scanRules env text policy md rest
    | Option.some ms =>
      build_findings env policy rule ms md ++ scanRules env text policy md rest

/-- pii.scan from app/detectors/pii.py (rules defaulting to the policy's pii
rules; the optional rules override used only by tests is not modeled). -/
def scan (env : DetectorEnv) (text : PyStr) (policy : Policy.PolicyDefinition)
    (md : Metadata) : List Finding :=
  scanRules env text policy md (policy.iter_rules "pii")

end Pii

namespace Exfil

open Detectors

/- ---------------------------------------------------------------------------
app/detectors/exfil.py
--------------------------------------------------------------------------- -/

/-- _scan_base64 from app/detectors/exfil.py: strip whitespace, require total
length ≥ 800 and entropy ≥ 4.5. -/
def scan_base64 (env : DetectorEnv) (text : PyStr) : List MatchTuple :=
  (env.eng.finditer Pat.base64BlobRegex text).filterMap (fun m =>
    let compact := m.value.filter (fun c => !(pyIsSpace c))
    if compact.length < 800 ∨ env.entropy compact < 4.5 then Option.none
    else
      Option.some (m.value, (m.start, m.stop),
        [("masked", DVal.str "[base64-blob]"),
         ("replacement", DVal.str "[base64-blob]"),
         ("preview", DVal.str "[truncated-blob]"),
         ("length", DVal.int (Int.ofNat compact.length))]))

/-- _scan_hex from app/detectors/exfil.py: strip whitespace, require
total length ≥ 640. -/
def scan_hex (env : DetectorEnv) (text : PyStr) : List MatchTuple :=
  (env.eng.finditer Pat.hexBlobRegex text).filterMap (fun m =>
    let compact := m.value.filter (fun c => !(pyIsSpace c))
    if compact.length < 640 then Option.none
    else
      Option.some (m.value, (m.start, m.stop),
        [("masked", DVal.str "[hex-blob]"),
         ("replacement", DVal.str "[hex-blob]"),
         ("preview", DVal.str "[truncated-blob]"),
         ("length", DVal.int (Int.ofNat compact.length))]))

/-- The per-rule loop of exfil.scan from app/detectors/exfil.py. -/
def scanRules (env : DetectorEnv) (text : PyStr) (policy : Policy.PolicyDefinition)
    (md : Metadata) : List Policy.PolicyRule → List Finding
  | [] => []
  | rule :: rest =>
    if rule.kind = Option.some "large_base64" then
      build_findings env policy rule (scan_base64 env text) md ++
        scanRules env text policy md rest
    else if rule.kind = Option.some "large_hex" then
      build_findings env policy rule (scan_hex env text) md ++
        scanRules env text policy md rest
    else scanRules env text policy md rest

/-- exfil.scan from app/detectors/exfil.py. -/
def scan (env : DetectorEnv) (text : PyStr) (policy : Policy.PolicyDefinition)
    (md : Metadata) : List Finding :=
  scanRules env text policy md (policy.iter_rules "exfil")

end Exfil

namespace Secrets

open Detectors

/- ---------------------------------------------------------------------------
app/detectors/secrets.py
--------------------------------------------------------------------------- -/

/-- round(x, 2) as used for the stored entropy values. -/
def pyRound2 (q : Rat) : Rat :=
  ((round (q * 100) : Int) : Rat) / 100

/-- _looks_like_jwt from app/detectors/secrets.py: three dot-separated parts,
each base64url-decodable after padding (decodability delegated to the env). -/
def looks_like_jwt (env : DetectorEnv) (token : PyStr) : Bool :=
  let parts := token.splitOn '.'
  if parts.length ≠ 3 then false
  else parts.all (fun segment => env.b64decodeOk (pad_base64 segment))

/-- _regex_matches from app/detectors/secrets.py (custom rule pattern). -/
def regex_matches (env : DetectorEnv) (pat : Pat) (text : PyStr) : List MatchTuple :=
  (env.eng.finditer pat text).map (fun m =>
    (m.value, (m.start, m.stop),
      [("masked", DVal.str "[secret]"), ("replacement", DVal.str "[secret]"),
       ("preview", DVal.str "[secret]")]))

/-- _scan_jwt from app/detectors/secrets.py. -/
def scan_jwt (env : DetectorEnv) (text : PyStr) : List MatchTuple :=
  (env.eng.finditer Pat.jwtRegex text).filterMap (fun m =>
    if ¬(looks_like_jwt env m.value) then Option.none
    else
      Option.some (m.value, (m.start, m.stop),
        [("masked", DVal.str "[jwt-token]"), ("replacement", DVal.str "[jwt-token]"),
         ("preview", DVal.str "[secret]"), ("reason", DVal.str "jwt_signature")]))

/-- _scan_aws_access_keys from app/detectors/secrets.py. -/
def scan_aws_access_keys (env : DetectorEnv) (text : PyStr) : List MatchTuple :=
  (env.eng.finditer Pat.awsAccessKeyRegex text).map (fun m =>
    (m.value, (m.start, m.stop),
      [("masked", DVal.str "[aws-access-key]"),
       ("replacement", DVal.str "[aws-access-key]"),
       ("preview", DVal.str "[secret]"), ("reason", DVal.str "aws_access_key")]))

/-- _scan_aws_secret_keys from app/detectors/secrets.py. -/
def scan_aws_secret_keys (env : DetectorEnv) (text : PyStr) : List MatchTuple :=
  (env.eng.finditer Pat.awsSecretKeyRegex text).filterMap (fun m =>
    let entropyVal := env.entropy m.value
    if entropyVal < 3.5 then Option.none
    else
      Option.some (m.value, (m.start, m.stop),
        [("masked", DVal.str "[aws-secret-key]"),
         ("replacement", DVal.str "[aws-secret-key]"),
         ("preview", DVal.str "[secret]"),
         ("entropy", DVal.rat (pyRound2 entropyVal)),
         ("reason", DVal.str "aws_secret_key")]))

/-- _scan_openai_keys from app/detectors/secrets.py. -/
def scan_openai_keys (env : DetectorEnv) (text : PyStr) : List MatchTuple :=
  (env.eng.finditer Pat.openaiApiKeyRegex text).map (fun m =>
    (m.value, (m.start, m.stop),
      [("masked", DVal.str "[openai-key]"), ("replacement", DVal.str "[openai-key]"),
       ("preview", DVal.str "[secret]"), ("reason", DVal.str "openai_api_key")]))

/-- _matches_with_placeholder from app/detectors/secrets.py. -/
def matches_with_placeholder (env : DetectorEnv) (pat : Pat) (text : PyStr)
    (token_type : String) : List MatchTuple :=
  (env.eng.finditer pat text).map (fun m =>
    (m.value, (m.start, m.stop),
      [("masked", DVal.str ("[" ++ token_type ++ "]")),
       ("replacement", DVal.str ("[" ++ token_type ++ "]")),
       ("preview", DVal.str "[secret]"), ("reason", DVal.str token_type)]))

/-- _scan_pem_blocks from app/detectors/secrets.py. -/
def scan_pem_blocks (env : DetectorEnv) (text : PyStr) : List MatchTuple :=
  (env.eng.finditer Pat.pemBlockRegex text).map (fun m =>
    (m.value, (m.start, m.stop),
      [("masked", DVal.str "[pem-private-key]"),
       ("replacement", DVal.str "[pem-private-key]"),
       ("preview", DVal.str "[secret]"), ("reason", DVal.str "pem_private_key")]))

/-- _scan_gcp_service_accounts from app/detectors/secrets.py. -/
def scan_gcp_service_accounts (env : DetectorEnv) (text : PyStr) : List MatchTuple :=
  (env.eng.finditer Pat.gcpSaRegex text).map (fun m =>
    (m.value, (m.start, m.stop),
      [("masked", DVal.str "[gcp-service-account]"),
       ("replacement", DVal.str "[gcp-service-account]"),
       ("preview", DVal.str "[secret]"), ("reason", DVal.str "gcp_service_account")]))

/-- The loop of _scan_high_entropy_tokens with its `seen` de-duplication set
(modeled as the list of already-seen tokens). -/
def scanHighEntropyGo (env : DetectorEnv) :
    List ReMatch → List PyStr → List MatchTuple
  | [], _ => []
  | m :: rest, seen =>
    if seen.contains m.value then scanHighEntropyGo env rest seen
    else
      let seen := m.value :: seen
      let entropyVal := env.entropy m.value
      if entropyVal < 3.5 then scanHighEntropyGo env rest seen
      else if ¬(m.value.any Char.isLower) then scanHighEntropyGo env rest seen
      else if ¬(m.value.any Char.isUpper) then scanHighEntropyGo env rest seen
      else if ¬(m.value.any Char.isDigit) then scanHighEntropyGo env rest seen
      else
        (m.value, (m.start, m.stop),
          [("masked", DVal.str "[token]"), ("replacement", DVal.str "[token]"),
           ("preview", DVal.str "[secret]"),
           ("entropy", DVal.rat (pyRound2 entropyVal)),
           ("reason", DVal.str "high_entropy")]) :: scanHighEntropyGo env rest seen

/-- _scan_high_entropy_tokens from app/detectors/secrets.py. -/
def scan_high_entropy_tokens (env : DetectorEnv) (text : PyStr) : List MatchTuple :=
  scanHighEntropyGo env (env.eng.finditer Pat.genericTokenRegex text) []

/-- The scanners dict of secrets._run_scanner. -/
def scannersTable : List (String × (DetectorEnv → PyStr → List MatchTuple)) :=
  [("jwt", scan_jwt),
   ("aws_access_key", scan_aws_access_keys),
   ("aws_secret_key", scan_aws_secret_keys),
   ("openai_api_key", scan_openai_keys),
   ("github_token", fun env text =>
     matches_with_placeholder env Pat.githubTokenRegex text "github-token"),
   ("slack_token", fun env text =>
     matches_with_placeholder env Pat.slackTokenRegex text "slack-token"),
   ("stripe_key", fun env text =>
     matches_with_placeholder env Pat.stripeTokenRegex text "stripe-key"),
   ("twilio_key", fun env text =>
     matches_with_placeholder env Pat.twilioTokenRegex text "twilio-key"),
   ("azure_sas", fun env text =>
     matches_with_placeholder env Pat.azureSasRegex text "azure-sas"),
   ("gcp_service_account", scan_gcp_service_accounts),
   ("pem_private_key", scan_pem_blocks),
   ("high_entropy", scan_high_entropy_tokens)]

/-- _run_scanner from app/detectors/secrets.py: a rule-supplied pattern wins
(raising re.error if it does not compile), else the dict dispatch on
rule.kind or "", else no matches. -/
def run_scanner (env : DetectorEnv) (rule : Policy.PolicyRule) (text : PyStr) :
    Except String (List MatchTuple) :=
  match rule.pattern with
  | Option.some p =>
    if env.eng.compiles p then
      Except.ok (regex_matches env (Pat.custom p) text)
    else Except.error "re.error"
  | Option.none =>
    Except.ok (
      match scannersTable.find? (fun sc => sc.1 = rule.kind.getD "") with
      | Option.some sc => sc.2 env text
      | Option.none => [])

/-- The per-rule loop of secrets.scan (exception propagation via Except). -/
def scanRules (env : DetectorEnv) (text : PyStr) (policy : Policy.PolicyDefinition)
    (md : Metadata) : List Policy.PolicyRule → Except String (List Finding)
  | [] => Except.ok []
  | rule :: rest =>
    match run_scanner env rule text with
    | Except.error e => Except.error e
    | Except.ok ms =>
      match scanRules env text policy md rest with
      | Except.error e => Except.error e
      | Except.ok tail => Except.ok (build_findings env policy rule ms md ++ tail)

/-- secrets.scan from app/detectors/secrets.py. -/
def scan (env : DetectorEnv) (text : PyStr) (policy : Policy.PolicyDefinition)
    (md : Metadata) : Except String (List Finding) :=
  scanRules env text policy md (policy.iter_rules "secret")

end Secrets

namespace Url

open Detectors

/- ---------------------------------------------------------------------------
app/detectors/url.py
--------------------------------------------------------------------------- -/

/-- SHORTENER_DOMAINS from app/detectors/url.py. -/
def SHORTENER_DOMAINS : List String :=
  ["bit.ly", "goo.gl", "tinyurl.com", "t.co", "ow.ly", "is.gd", "cutt.ly",
   "rb.gy", "rebrand.ly", "buff.ly"]

/-- SUSPICIOUS_TLDS from app/detectors/url.py. -/
def SUSPICIOUS_TLDS : List String :=
  [".zip", ".mov", ".country", ".support", ".top", ".xyz", ".click", ".gq",
   ".work", ".kim"]

/-- One dotted-quad octet is valid for ipaddress.IPv4Address: 1-3 decimal
digits, value ≤ 255, and no leading zero (except the single digit 0). -/
def ipv4OctetOk (s : PyStr) : Bool :=
  s.length ≥ 1 ∧ s.length ≤ 3 ∧ s.all Char.isDigit ∧
  (s.length = 1 ∨ s.head? ≠ some '0') ∧
  (s.foldl (fun acc c => acc * 10 + (c.toNat - '0'.toNat)) 0) ≤ 255

/-- ipaddress.IPv4Address(value) succeeds (executable model of the stdlib
parser: exactly four valid dot-separated octets). -/
def ipv4AddressOk (value : PyStr) : Bool :=
  let parts := value.splitOn '.'
  parts.length = 4 ∧ parts.all ipv4OctetOk

/-- _ip_in_url from app/detectors/url.py: re.search for the https?://ip prefix
anywhere in the url, then IPv4Address validation of the captured group. -/
def ip_in_url (env : DetectorEnv) (url : PyStr) : Bool :=
  match env.eng.searchGroup Pat.ipInUrlRegex url with
  | Option.none => false
  | Option.some ip_str => ipv4AddressOk ip_str

/-- _extract_hostname from app/detectors/url.py: re.match group 1 of
https?://([^/]+), then drop an optional :port suffix. -/
def extract_hostname (env : DetectorEnv) (url : PyStr) : Option PyStr :=
  match env.eng.searchGroup Pat.hostOfUrlRegex url with
  | Option.none => Option.none
  | Option.some hostname => Option.some (hostname.takeWhile (fun c => c ≠ ':'))

/-- _url_detail from app/detectors/url.py. -/
def url_detail (url : PyStr) (reason : String) : Detail :=
  let preview := truncate_preview url 48
  [("masked", DVal.str URL_PLACEHOLDER), ("replacement", DVal.str URL_PLACEHOLDER),
   ("preview", DVal.str (String.mk preview)), ("reason", DVal.str reason)]

/-- _regex_matches from app/detectors/url.py (custom rule pattern). -/
def regex_matches (env : DetectorEnv) (pat : Pat) (text : PyStr) : List MatchTuple :=
  (env.eng.finditer pat text).map (fun m =>
    (m.value, (m.start, m.stop), url_detail m.value "pattern"))

/-- _scan_ip_urls from app/detectors/url.py. -/
def scan_ip_urls (env : DetectorEnv) (text : PyStr) : List MatchTuple :=
  (env.eng.finditer Pat.ipUrlRegex text).filterMap (fun m =>
    if ¬(ip_in_url env m.value) then Option.none
    else Option.some (m.value, (m.start, m.stop), url_detail m.value "ip_url"))

/-- _scan_data_urls from app/detectors/url.py. -/
def scan_data_urls (env : DetectorEnv) (text : PyStr) : List MatchTuple :=
  (env.eng.finditer Pat.dataUrlRegex text).map (fun m =>
    (m.value, (m.start, m.stop), url_detail m.value "data_url"))

/-- _scan_executable_urls from app/detectors/url.py. -/
def scan_executable_urls (env : DetectorEnv) (text : PyStr) : List MatchTuple :=
  (env.eng.finditer Pat.executableUrlRegex text).map (fun m =>
    (m.value, (m.start, m.stop), url_detail m.value "executable_ext"))

/-- _scan_credential_urls from app/detectors/url.py. -/
def scan_credential_urls (env : DetectorEnv) (text : PyStr) : List MatchTuple :=
  (env.eng.finditer Pat.credentialUrlRegex text).map (fun m =>
    (m.value, (m.start, m.stop), url_detail m.value "cred_in_url"))

/-- Python str.lower, character-wise (ASCII model). -/
def pyLower (s : PyStr) : PyStr := s.map Char.toLower

/-- _scan_shorteners from app/detectors/url.py. -/
def scan_shorteners (env : DetectorEnv) (text : PyStr) : List MatchTuple :=
  (env.eng.finditer Pat.httpUrlRegex text).filterMap (fun m =>
    match extract_hostname env m.value with
    | Option.none => Option.none
    | Option.some hostname =>
      if ¬hostname.isEmpty ∧ SHORTENER_DOMAINS.contains (String.mk (pyLower hostname)) then
        Option.some (m.value, (m.start, m.stop), url_detail m.value "shortener")
      else Option.none)

/-- _scan_suspicious_tld from app/detectors/url.py. -/
def scan_suspicious_tld (env : DetectorEnv) (text : PyStr) : List MatchTuple :=
  (env.eng.finditer Pat.httpUrlRegex text).filterMap (fun m =>
    match extract_hostname env m.value with
    | Option.none => Option.none
    | Option.some hostname =>
      if ¬hostname.isEmpty ∧
          SUSPICIOUS_TLDS.any (fun tld => tld.data.isSuffixOf (pyLower hostname)) then
        Option.some (m.value, (m.start, m.stop), url_detail m.value "suspicious_tld")
      else Option.none)

/-- The scanners dict of url._run_scanner. -/
def scannersTable : List (String × (DetectorEnv → PyStr → List MatchTuple)) :=
  [("ip", scan_ip_urls),
   ("ip_literal", scan_ip_urls),
   ("data", scan_data_urls),
   ("data_uri", scan_data_urls),
   ("risky_extension", scan_executable_urls),
   ("executable_ext", scan_executable_urls),
   ("cred_in_url", scan_credential_urls),
   ("shortener", scan_shorteners),
   ("suspicious_tld", scan_suspicious_tld)]

/-- _run_scanner from app/detectors/url.py: a rule-supplied pattern wins
(raising re.error if it does not compile), else the dict dispatch on
rule.kind or "", else no matches. -/
def run_scanner (env : DetectorEnv) (rule : Policy.PolicyRule) (text : PyStr) :
    Except String (List MatchTuple) :=
  match rule.pattern with
  | Option.some p =>
    if env.eng.compiles p then Except.ok (regex_matches env (Pat.custom p) text)
    else Except.error "re.error"
  | Option.none =>
    Except.ok (
      match scannersTable.find? (fun sc => sc.1 = rule.kind.getD "") with
      | Option.some sc => sc.2 env text
      | Option.none => [])

/-- The per-rule loop of url.scan (exception propagation via Except). -/
def scanRules (env : DetectorEnv) (text : PyStr) (policy : Policy.PolicyDefinition)
    (md : Metadata) : List Policy.PolicyRule → Except String (List Finding)
  | [] => Except.ok []
  | rule :: rest =>
    match run_scanner env rule text with
    | Except.error e => Except.error e
    | Except.ok ms =>
      match scanRules env text policy md rest with
      | Except.error e => Except.error e
      | Except.ok tail => Except.ok (build_findings env policy rule ms md ++ tail)

/-- url.scan from app/detectors/url.py. -/
def scan (env : DetectorEnv) (text : PyStr) (policy : Policy.PolicyDefinition)
    (md : Metadata) : Except String (List Finding) :=
  scanRules env text policy md (policy.iter_rules "url")

end Url

namespace Cmd

open Detectors

/- ---------------------------------------------------------------------------
app/detectors/cmd.py
--------------------------------------------------------------------------- -/

/-- _command_detail from app/detectors/cmd.py. -/
def command_detail (command : PyStr) (reason : String) : Detail :=
  let preview := truncate_preview command 60
  [("masked", DVal.str CMD_PLACEHOLDER), ("replacement", DVal.str CMD_PLACEHOLDER),
   ("preview", DVal.str (String.mk preview)), ("reason", DVal.str reason)]

/-- _regex_matches from app/detectors/cmd.py (custom rule pattern). -/
def regex_matches (env : DetectorEnv) (pat : Pat) (text : PyStr) : List MatchTuple :=
  (env.eng.finditer pat text).map (fun m =>
    (m.value, (m.start, m.stop), command_detail m.value "pattern"))

/-- _matches_with_reason from app/detectors/cmd.py. -/
def matches_with_reason (env : DetectorEnv) (pat : Pat) (text : PyStr)
    (reason : String) : List MatchTuple :=
  (env.eng.finditer pat text).map (fun m =>
    (m.value, (m.start, m.stop), command_detail m.value reason))

/-- The scanners dict of cmd._run_scanner. -/
def scannersTable : List (String × (DetectorEnv → PyStr → List MatchTuple)) :=
  [("curl_pipe", fun env text =>
     matches_with_reason env Pat.curlPipeRegex text "curl_pipe"),
   ("wget_pipe", fun env text =>
     matches_with_reason env Pat.wgetPipeRegex text "wget_pipe"),
   ("powershell_encoded", fun env text =>
     matches_with_reason env Pat.powershellEncRegex text "powershell_encoded"),
   ("invoke_webrequest", fun env text =>
     matches_with_reason env Pat.invokeWebrequestRegex text "invoke_webrequest"),
   ("powershell_iwr", fun env text =>
     matches_with_reason env Pat.powershellIwrRegex text "powershell_iwr"),
   ("rm_rf", fun env text =>
     matches_with_reason env Pat.rmRfRegex text "rm_rf"),
   ("reg_add", fun env text =>
     matches_with_reason env Pat.regAddRegex text "reg_add"),
   ("certutil", fun env text =>
     matches_with_reason env Pat.certutilRegex text "certutil"),
   ("mshta", fun env text =>
     matches_with_reason env Pat.mshtaRegex text "mshta"),
   ("rundll32", fun env text =>
     matches_with_reason env Pat.rundll32Regex text "rundll32")]

/-- _run_scanner from app/detectors/cmd.py: a rule-supplied pattern wins
(raising re.error if it does not compile), else the dict dispatch on
rule.kind or "", else no matches. -/
def run_scanner (env : DetectorEnv) (rule : Policy.PolicyRule) (text : PyStr) :
    Except String (List MatchTuple) :=
  match rule.pattern with
  | Option.some p =>
    if env.eng.compiles p then Except.ok (regex_matches env (Pat.custom p) text)
    else Except.error "re.error"
  | Option.none =>
    Except.ok (
      match scannersTable.find? (fun sc => sc.1 = rule.kind.getD "") with
      | Option.some sc => sc.2 env text
      | Option.none => [])

/-- The per-rule loop of cmd.scan (exception propagation via Except). -/
def scanRules (env : DetectorEnv) (text : PyStr) (policy : Policy.PolicyDefinition)
    (md : Metadata) : List Policy.PolicyRule → Except String (List Finding)
  | [] => Except.ok []
  | rule :: rest =>
    match run_scanner env rule text with
    | Except.error e => Except.error e
    | Except.ok ms =>
      match scanRules env text policy md rest with
      | Except.error e => Except.error e
      | Except.ok tail => Except.ok (build_findings env policy rule ms md ++ tail)

/-- cmd.scan from app/detectors/cmd.py. -/
def scan (env : DetectorEnv) (text : PyStr) (policy : Policy.PolicyDefinition)
    (md : Metadata) : Except String (List Finding) :=
  scanRules env text policy md (policy.iter_rules "cmd")

end Cmd

namespace Detectors

/- ---------------------------------------------------------------------------
app/detectors/__init__.py and the detector loop of app/pipeline.py
--------------------------------------------------------------------------- -/

/-- scan_all from app/detectors/__init__.py: the registry in its fixed source
order.  Each yielded element is (detector name, result); per-detector wall
clock latencies are not modeled.  Detectors that can raise (a rule-supplied
pattern failing to compile) carry their exception in the Except; nothing in
scan_all or its caller catches it. -/
def scan_all (env : DetectorEnv) (content : PyStr) (policy : Policy.PolicyDefinition)
    (md : Metadata) : List (String × Except String (List Finding)) :=
  [("pii", Except.ok (Pii.scan env content policy md)),
   ("exfil", Except.ok (Exfil.scan env content policy md)),
   ("secret", Secrets.scan env content policy md),
   ("url", Url.scan env content policy md),
   ("cmd", Cmd.scan env content policy md)]

/-- The detector loop of run_pipeline from app/pipeline.py: extend findings
with each yielded batch and break as soon as a batch contains a finding with
action "block"; an uncaught detector exception aborts the loop (and the whole
pipeline) with that exception.  Since the loop stops consuming the lazy
generator at the break, detectors after the break never run: their entries are
simply never inspected. -/
def collectDetectorFindings :
    List (String × Except String (List Finding)) → Except String (List Finding)
  | [] => Except.ok []
  | (_, Except.error e) :: _ => Except.error e
  | (_, Except.ok fs) :: rest =>
    if fs.any (fun f => f.action = "block") then Except.ok fs
    else
      match collectDetectorFindings rest with
      | Except.error e => Except.error e
      | Except.ok tail => Except.ok (fs ++ tail)

end Detectors

namespace Actions

/- ---------------------------------------------------------------------------
app/actions.py
--------------------------------------------------------------------------- -/

/-- Python truthiness of a detail value (for the `or` chains). -/
def dvalTruthy (v : Option DVal) : Bool :=
  match v with
  | Option.none => false
  | Option.some DVal.none => false
  | Option.some (DVal.str s) => s ≠ ""
  | Option.some (DVal.span _ _) => true
  | Option.some (DVal.int n) => n ≠ 0
  | Option.some (DVal.rat q) => q ≠ 0
  | Option.some (DVal.bool b) => b

/-- Python str() of a detail value. -/
def pyStrOfDVal (v : DVal) : String :=
  match v with
  | DVal.str s => s
  | DVal.none => "None"
  | DVal.span a b => "[" ++ toString a ++ ", " ++ toString b ++ "]"
  | DVal.int n => toString n
  | DVal.rat q => toString q
  | DVal.bool b => if b then "True" else "False"

/-- Python `str(detail.get(k1) or detail.get(k2) or fallback)`. -/
def orGet2 (d : Detail) (k1 k2 : String) (fallback : String) : String :=
  if dvalTruthy (dget d k1) then pyStrOfDVal ((dget d k1).getD DVal.none)
  else if dvalTruthy (dget d k2) then pyStrOfDVal ((dget d k2).getD DVal.none)
  else fallback

/-- Python `str(detail.get(k1) or fallback)`. -/
def orGet1 (d : Detail) (k1 : String) (fallback : String) : String :=
  if dvalTruthy (dget d k1) then pyStrOfDVal ((dget d k1).getD DVal.none)
  else fallback

/-- _select_replacement from app/actions.py. -/
def select_replacement (action : String) (detail : Detail) : Option String :=
  if action = "mask" then Option.some (orGet2 detail "replacement" "masked" "[REDACTED]")
  else if action = "delink" then Option.some (orGet1 detail "replacement" "[redacted-url]")
  else if action = "annotate" then
    Option.some ("[flagged:" ++ orGet1 detail "rule_id" "annotated" ++ "]")
  else if action = "remove" then Option.some ""
  else if action = "block" then Option.none
  else Option.some (orGet2 detail "replacement" "masked" "[redacted]")

/-- _collect_replacements from app/actions.py: spans are read as-is (int pairs)
with no validity check; a block action contributes no replacement.  A span
value that is not a two-element sequence is skipped (the model's span detail
values always have two elements). -/
def collect_replacements : List Finding → List (Int × Int × String)
  | [] => []
  | f :: rest =>
    let action := pyLowerString f.action
    match dget f.detail "span" with
    | Option.some (DVal.span a b) =>
      (match select_replacement action f.detail with
       | Option.none => collect_replacements rest
       | Option.some repl => (a, b, repl) :: collect_replacements rest)
    | _ => collect_replacements rest

/-- Stable insertion by ascending span start (Python sorted is stable: equal
starts keep insertion order). -/
def insertByStart (x : Int × Int × String) :
    List (Int × Int × String) → List (Int × Int × String)
  | [] => [x]
  | y :: rest =>
    if y.1 ≤ x.1 then y :: insertByStart x rest else x :: y :: rest

/-- Stable sort by ascending span start (model of sorted(key=item[0])). -/
def sortByStart : List (Int × Int × String) → List (Int × Int × String)
  | [] => []
  | x :: rest => insertByStart x (sortByStart rest)

/-- The cursor walk of _apply_replacements: skip any span starting before the
cursor, otherwise emit the gap slice, the replacement, and advance the cursor
to max(cursor, end).  Returns the parts list (joined by the caller). -/
def applyRepGo (text : PyStr) : List (Int × Int × String) → Int → List PyStr
  | [], cursor => [pySliceFrom text cursor]
  | (s, e, r) :: rest, cursor =>
    if s < cursor then applyRepGo text rest cursor
    else pySlice text cursor s :: r.data :: applyRepGo text rest (max cursor e)

/-- _apply_replacements from app/actions.py. -/
def apply_replacements (text : PyStr) (replacements : List (Int × Int × String)) :
    PyStr :=
  if replacements.isEmpty then text
  else (applyRepGo text (sortByStart replacements) 0).flatten

/-- apply_actions from app/actions.py.  Rendering the safe message reads the
locale YAML catalog from disk; that external lookup is the renderSafe
parameter. -/
def apply_actions (renderSafe : Option String → PyStr) (parsed_text : PyStr)
    (findings : List Finding) (decision : Policy.PolicyDecision) : PyStr :=
  if decision.blocked then renderSafe decision.safe_message_key
  else apply_replacements parsed_text (collect_replacements findings)

end Actions

namespace Parser

/- ---------------------------------------------------------------------------
app/parser.py (the segment model, segment lookup, gap filling, and the
context annotation pass of app/pipeline.py)
--------------------------------------------------------------------------- -/

/-- Segment from app/parser.py (type is one of "text" | "code" | "link";
offsets are kept as Python ints). -/
structure Segment where
  type : String
  content : PyStr
  start : Int
  stop : Int
  metadata : Detail
  explain_only : Bool
  deriving DecidableEq

/-- ParsedContent from app/parser.py. -/
structure ParsedContent where
  text : PyStr
  segments : List Segment
  metadata : Detail
  deriving DecidableEq

/-- ParsedContent.get_segment_at_offset . -/
def ParsedContent.get_segment_at_offset (p : ParsedContent) (offset : Int) :
    Option Segment :=
  p.segments.find? (fun s => s.start ≤ offset ∧ offset < s.stop)

/-- ParsedContent.get_segments_in_range . -/
def ParsedContent.get_segments_in_range (p : ParsedContent) (start stop : Int) :
    List Segment :=
  p.segments.filter (fun s => s.start < stop ∧ s.stop > start)

/-- get_context_for_finding from app/parser.py. -/
def get_context_for_finding (finding_start finding_stop : Int)
    (parsed : ParsedContent) : String × Bool :=
  let segment :=
    match parsed.get_segment_at_offset finding_start with
    | Option.some s => Option.some s
    | Option.none =>
      (parsed.get_segments_in_range finding_start finding_stop).head?
  match segment with
  | Option.none => ("text", false)
  | Option.some s => (s.type, s.explain_only)

/-- The per-finding body of _annotate_findings_with_context from
app/pipeline.py (the in-place mutation is modeled functionally); a finding
whose detail has no (two-element) span is left untouched. -/
def annotate_finding (parsed : ParsedContent) (f : Finding) : Finding :=
  match dget f.detail "span" with
  | Option.some (DVal.span a b) =>
    let r := get_context_for_finding a b parsed
    { f with context := r.1, explain_only := r.2 }
  | _ => f

/-- _annotate_findings_with_context from app/pipeline.py. -/
def annotate_findings_with_context (findings : List Finding)
    (parsed : ParsedContent) : List Finding :=
  findings.map (annotate_finding parsed)

/-- Stable insertion of special segments by ascending start offset. -/
def insertSpecial (x : Nat × Nat × Segment) :
    List (Nat × Nat × Segment) → List (Nat × Nat × Segment)
  | [] => [x]
  | y :: rest =>
    if y.1 ≤ x.1 then y :: insertSpecial x rest else x :: y :: rest

/-- Stable sort of special segments by ascending start offset (model of
special_segments.sort(key=x[0]), which is stable). -/
def sortSpecials : List (Nat × Nat × Segment) → List (Nat × Nat × Segment)
  | [] => []
  | x :: rest => insertSpecial x (sortSpecials rest)

/-- The gap-filling walk of _build_segments: drop overlapping specials, emit a
text segment for each gap whose content has a non-whitespace character, and
append the final text segment. -/
def buildSegmentsGo (text : PyStr) : List (Nat × Nat × Segment) → Nat → List Segment
  | [], current_pos =>
    if current_pos < text.length ∧ (text.drop current_pos).any (fun c => !(pyIsSpace c)) then
      [{ type := "text", content := text.drop current_pos,
         start := Int.ofNat current_pos, stop := Int.ofNat text.length,
         metadata := [], explain_only := false }]
    else []
  | (start, stop, seg) :: rest, current_pos =>
    if start < current_pos then buildSegmentsGo text rest current_pos
    else
      let gap := (text.take start).drop current_pos
      let gapSegs : List Segment :=
        if start > current_pos ∧ gap.any (fun c => !(pyIsSpace c)) then
          [{ type := "text", content := gap, start := Int.ofNat current_pos,
             stop := Int.ofNat start, metadata := [], explain_only := false }]
        else []
      gapSegs ++ (seg :: buildSegmentsGo text rest stop)

/-- _build_segments from app/parser.py: assemble the special segments from the
pre-parsed fenced blocks, inline code, markdown links and raw urls (with the
source's containment exclusions), sort them by start, then fill gaps. -/
def build_segments (text : PyStr)
    (fenced_blocks : List (Nat × Nat × String × PyStr))
    (inline_codes : List (Nat × Nat × PyStr))
    (md_links : List (Nat × Nat × PyStr × PyStr))
    (raw_urls : List (Nat × Nat × PyStr)) : List Segment :=
  let fencedSegs : List (Nat × Nat × Segment) :=
    fenced_blocks.map (fun fb =>
      (fb.1, fb.2.1,
        { type := "code", content := fb.2.2.2, start := Int.ofNat fb.1,
          stop := Int.ofNat fb.2.1,
          metadata := [("lang", DVal.str fb.2.2.1), ("fenced", DVal.bool true)],
          explain_only := false }))
  let fenced_ranges := fenced_blocks.map (fun fb => (fb.1, fb.2.1))
  let inlineSegs : List (Nat × Nat × Segment) :=
    inline_codes.filterMap (fun ic =>
      if fenced_ranges.any (fun r => r.1 ≤ ic.1 ∧ ic.1 < r.2) then Option.none
      else Option.some (ic.1, ic.2.1,
        { type := "code", content := ic.2.2, start := Int.ofNat ic.1,
          stop := Int.ofNat ic.2.1, metadata := [("fenced", DVal.bool false)],
          explain_only := false }))
  let code_ranges := fenced_ranges ++ inline_codes.map (fun ic => (ic.1, ic.2.1))
  let linkSegs : List (Nat × Nat × Segment) :=
    md_links.filterMap (fun ml =>
      if code_ranges.any (fun r => r.1 ≤ ml.1 ∧ ml.1 < r.2) then Option.none
      else Option.some (ml.1, ml.2.1,
        { type := "link", content := (text.take ml.2.1).drop ml.1,
          start := Int.ofNat ml.1, stop := Int.ofNat ml.2.1,
          metadata := [("link_text", DVal.str (String.mk ml.2.2.1)),
                       ("url", DVal.str (String.mk ml.2.2.2))],
          explain_only := false }))
  let link_ranges := md_links.map (fun ml => (ml.1, ml.2.1))
  let all_special_ranges := code_ranges ++ link_ranges
  let rawSegs : List (Nat × Nat × Segment) :=
    raw_urls.filterMap (fun ru =>
      if all_special_ranges.any (fun r => r.1 ≤ ru.1 ∧ ru.1 < r.2) then Option.none
      else Option.some (ru.1, ru.2.1,
        { type := "link", content := ru.2.2, start := Int.ofNat ru.1,
          stop := Int.ofNat ru.2.1,
          metadata := [("url", DVal.str (String.mk ru.2.2)),
                       ("raw", DVal.bool true)],
          explain_only := false }))
  let special := sortSpecials (fencedSegs ++ inlineSegs ++ linkSegs ++ rawSegs)
  buildSegmentsGo text special 0

end Parser

/- ---------------------------------------------------------------------------
Concrete instantiations used by the closed evaluation theorems.
--------------------------------------------------------------------------- -/

/-- A regex engine exact on the inputs of the closed theorems below: the
custom pattern "x*" produces the empty match at every position of a text
without the letter x (as re.finditer does); every other pattern finds nothing
on the tiny texts used; re.compile fails exactly on the unbalanced
pattern "(". -/
def cexEngine : RegexEngine where
  finditer := fun pat text =>
    match pat with
    | Pat.custom s =>
      if s = "x*" ∧ text.all (fun c => c ≠ 'x') then
        (List.range (text.length + 1)).map (fun i =>
          { value := [], start := i, stop := i })
      else []
    | _ => []
  search := fun _ _ => false
  searchGroup := fun _ _ => Option.none
  compiles := fun p => p ≠ "("

/-- Detector environment for the closed theorems (the hash, entropy and base64
values are never inspected by them). -/
def cexEnv : DetectorEnv where
  eng := cexEngine
  sha256hex := fun _ => ""
  entropy := fun _ => 0
  b64decodeOk := fun _ => false

/-- An engine with no matches at all (trivially span-well-formed), used to
instantiate hypotheses of the universally quantified theorems. -/
def emptyEngine : RegexEngine where
  finditer := fun _ _ => []
  search := fun _ _ => false
  searchGroup := fun _ _ => Option.none
  compiles := fun _ => true

/-- Detector environment over the empty engine. -/
def emptyEnv : DetectorEnv where
  eng := emptyEngine
  sha256hex := fun _ => ""
  entropy := fun _ => 0
  b64decodeOk := fun _ => false

/-- Default context settings (DEFAULT_CONTEXT_SETTINGS from app/policy.py). -/
def defaultContextSettings : Policy.ContextSettings :=
  { enabled := true, code_block_penalty := 15, explain_only_penalty := 25,
    link_context_bonus := 5 }

/-- Policy with a single cmd rule whose custom pattern "(" does not compile. -/
def cexPolicyBadPattern : Policy.PolicyDefinition :=
  { policy_id := "default", tiers := "default", allowlist := [],
    rules := [{ id := "CMD-CUSTOM", type := "cmd", action := "block",
                kind := Option.none, pattern := Option.some "(",
                severity := "medium", risk_weight := 10,
                safe_message := Option.none }],
    context_settings := defaultContextSettings }

/-- Policy with a single cmd rule whose custom pattern "x*" can match the
empty string. -/
def cexPolicyEmptyMatch : Policy.PolicyDefinition :=
  { policy_id := "default", tiers := "default", allowlist := [],
    rules := [{ id := "CMD-STAR", type := "cmd", action := "mask",
                kind := Option.none, pattern := Option.some "x*",
                severity := "medium", risk_weight := 10,
                safe_message := Option.none }],
    context_settings := defaultContextSettings }

/-- Policy with one allowlist entry exempting the exact value "x" and a single
pii rule, for the allowlist witness. -/
def cexPolicyAllow : Policy.PolicyDefinition :=
  { policy_id := "default", tiers := "default",
    allowlist := [{ value := Option.some ['x'], regex := Option.none,
                    rule_types := [], rule_kinds := [], rule_ids := [],
                    tenants := [] }],
    rules := [{ id := "PII-EMAIL", type := "pii", action := "mask",
                kind := Option.some "email", pattern := Option.none,
                severity := "medium", risk_weight := 10,
                safe_message := Option.none }],
    context_settings := defaultContextSettings }

/-- The findings of the empty-match counterexample run. -/
def cexC5findings : List Finding :=
  match Cmd.scan cexEnv ['a', 'b'] cexPolicyEmptyMatch [] with
  | Except.ok fs => fs
  | Except.error _ => []

/-- A blocking finding (used to exercise the short-circuit). -/
def cexBlockFinding : Finding :=
  { rule_id := "R-BLOCK", action := "block", type := "cmd", detail := [],
    context := "text", explain_only := false }

/-- A mask finding whose span is degenerate (start 5 > end 3). -/
def cexC4finding : Finding :=
  { rule_id := "PII-X", action := "mask", type := "pii",
    detail := [("span", DVal.span 5 3), ("replacement", DVal.str "X")],
    context := "text", explain_only := false }

/-- A finding whose span [9,10) falls in a whitespace-only gap dropped by the
parser. -/
def cexC10finding : Finding :=
  { rule_id := "PII-X", action := "mask", type := "pii",
    detail := [("span", DVal.span 9 10)],
    context := "text", explain_only := false }

/-- Text of nine letters, one space, nine letters: the space at offset 9 is a
whitespace-only gap between the two code blocks below. -/
def cexParsedText : PyStr :=
  List.replicate 9 'a' ++ [' '] ++ List.replicate 9 'b'

/-- Parsed content whose two (fenced code) segments cover [0,9) and [10,19),
leaving the whitespace-only gap [9,10) with no segment (the parser drops it). -/
def cexParsed : Parser.ParsedContent :=
  { text := cexParsedText,
    segments := Parser.build_segments cexParsedText
      [(0, 9, "x", ['b']), (10, 19, "y", ['d'])] [] [] [],
    metadata := [] }

/-- The non-blocked decision used by the action-application theorems. -/
def cexDecisionOpen : Policy.PolicyDecision :=
  { blocked := false, risk_score := 0, applied_rules := [],
    safe_message_key := Option.none }

/-- The ok-findings of a yielded detector batch (empty for an error entry). -/
def batchFindings (b : String × Except String (List Finding)) : List Finding :=
  match b.2 with
  | Except.ok gs => gs
  | Except.error _ => []

/-- A scanner match tuple is well formed for a text when its span is within
bounds (start ≤ end ≤ len) and its extra detail does not shadow the reserved
span key. -/
def TupleOk (text : PyStr) (t : Detectors.MatchTuple) : Prop :=
  t.2.1.1 ≤ t.2.1.2 ∧ t.2.1.2 ≤ text.length ∧ ∀ q ∈ t.2.2, q.1 ≠ "span"

/-- A finding's detail carries a span [a, b] of naturals with
a ≤ b ≤ len(text). -/
def FindingSpanOk (text : PyStr) (f : Finding) : Prop :=
  ∃ a b : Nat, dget f.detail "span" =
      Option.some (DVal.span (Int.ofNat a) (Int.ofNat b)) ∧
    a ≤ b ∧ b ≤ text.length

/- ===========================================================================
Theorems.
=========================================================================== -/

/-- One evaluation step sets blocked exactly when it was already set or the
current finding blocks. -/
theorem evalStep_blocked (p : Policy.PolicyDefinition) (bypass : Bool)
    (st : Policy.EvalState) (f : Finding) :
    (Policy.evalStep p bypass st f).blocked =
      (st.blocked || Policy.blocksFinding p bypass f) := by
  unfold Policy.evalStep Policy.blocksFinding
  cases h : p.rules_by_id f.rule_id with
  | none => simp
  | some rule =>
    by_cases hb : rule.action = "block"
    · by_cases hskip : bypass = true ∧ f.explain_only = true ∧
        (f.type = "cmd" ∨
          Policy.apply_context_adjustment f (max rule.risk_weight 0)
            p.context_settings < Policy.DEFAULT_RULE_WEIGHT / 2)
      · simp [hb, hskip]
      · simp [hb, hskip]
    · by_cases hmsg : Policy.pyTruthyStr rule.safe_message = true ∧
        st.safe_message_key = Option.none
      · simp [hb, hmsg]
      · simp [hb, hmsg]

/-- The evaluation fold sets blocked exactly when the initial state had it or
some finding blocks. -/
theorem evalFold_blocked (p : Policy.PolicyDefinition) (bypass : Bool)
    (fs : List Finding) :
    ∀ st : Policy.EvalState,
      (fs.foldl (Policy.evalStep p bypass) st).blocked =
        (st.blocked || fs.any (Policy.blocksFinding p bypass)) := by
  induction fs with
  | nil => intro st; simp
  | cons f rest ih =>
    intro st
    simp only [List.foldl_cons, List.any_cons, ih, evalStep_blocked, Bool.or_assoc]

/-- The decidable blocking condition unfolded to its logical form. -/
theorem blocksFinding_iff (p : Policy.PolicyDefinition) (bypass : Bool)
    (f : Finding) :
    Policy.blocksFinding p bypass f = true ↔
      ∃ rule, p.rules_by_id f.rule_id = Option.some rule ∧
        rule.action = "block" ∧
        ¬(bypass = true ∧ f.explain_only = true ∧
          (f.type = "cmd" ∨
            Policy.apply_context_adjustment f (max rule.risk_weight 0)
              p.context_settings < 5)) := by
  unfold Policy.blocksFinding
  cases h : p.rules_by_id f.rule_id with
  | none => simp
  | some rule =>
    have h5 : Policy.DEFAULT_RULE_WEIGHT / 2 = (5 : Int) := by decide
    simp [h5]
    intro _
    constructor
    · rintro (hb | heo | hx) h1 h2
      · exact absurd h1 (by simp [hb])
      · exact absurd h2 (by simp [heo])
      · exact hx
    · intro himp
      by_cases hb : bypass = true
      · by_cases heo : f.explain_only = true
        · exact Or.inr (Or.inr (himp hb heo))
        · exact Or.inr (Or.inl (by simpa using heo))
      · exact Or.inl (by simpa using hb)

/-- C1: evaluate returns blocked = true iff some finding's rule (looked up by
rule_id) has action "block" and the explain-only bypass is not granted for it,
the bypass being granted exactly when allow_explain_only_bypass holds, the
finding is explain_only, and either its type is "cmd" or its context-adjusted
weight is strictly below 5. -/
theorem evaluate_blocked_iff (p : Policy.PolicyDefinition)
    (findings : List Finding) (bypass : Bool) :
    (Policy.evaluate p findings bypass).blocked = true ↔
      ∃ f ∈ findings, ∃ rule, p.rules_by_id f.rule_id = Option.some rule ∧
        rule.action = "block" ∧
        ¬(bypass = true ∧ f.explain_only = true ∧
          (f.type = "cmd" ∨
            Policy.apply_context_adjustment f (max rule.risk_weight 0)
              p.context_settings < 5)) := by
  have hshape : (Policy.evaluate p findings bypass).blocked =
      (findings.foldl (Policy.evalStep p bypass)
        { blocked := false, applied_rules := [], safe_message_key := Option.none,
          risk_score := 0 }).blocked := rfl
  rw [hshape, evalFold_blocked]
  simp only [Bool.false_or, List.any_eq_true]
  constructor
  · rintro ⟨f, hf, hblock⟩
    exact ⟨f, hf, (blocksFinding_iff p bypass f).mp hblock⟩
  · rintro ⟨f, hf, hex⟩
    exact ⟨f, hf, (blocksFinding_iff p bypass f).mpr hex⟩

/-- One evaluation step adds exactly the finding's contribution to the score. -/
theorem evalStep_risk (p : Policy.PolicyDefinition) (bypass : Bool)
    (st : Policy.EvalState) (f : Finding) :
    (Policy.evalStep p bypass st f).risk_score =
      st.risk_score + Policy.contribution p f := by
  unfold Policy.evalStep Policy.contribution
  cases h : p.rules_by_id f.rule_id with
  | none => simp
  | some rule =>
    by_cases hb : rule.action = "block"
    · by_cases hskip : bypass = true ∧ f.explain_only = true ∧
        (f.type = "cmd" ∨
          Policy.apply_context_adjustment f (max rule.risk_weight 0)
            p.context_settings < Policy.DEFAULT_RULE_WEIGHT / 2)
      · simp [hb, hskip]
      · simp [hb, hskip]
    · by_cases hmsg : Policy.pyTruthyStr rule.safe_message = true ∧
        st.safe_message_key = Option.none
      · simp [hb, hmsg]
      · simp [hb, hmsg]

/-- The evaluation fold accumulates the sum of the contributions. -/
theorem evalFold_risk (p : Policy.PolicyDefinition) (bypass : Bool)
    (fs : List Finding) :
    ∀ st : Policy.EvalState,
      (fs.foldl (Policy.evalStep p bypass) st).risk_score =
        st.risk_score + (fs.map (Policy.contribution p)).sum := by
  induction fs with
  | nil => intro st; simp
  | cons f rest ih =>
    intro st
    simp only [List.foldl_cons, List.map_cons, List.sum_cons, ih, evalStep_risk]
    ring

/-- The context adjustment never returns a negative value when fed the
clamped base weight. -/
theorem apply_context_adjustment_nonneg (f : Finding) (w : Int) (hw : 0 ≤ w)
    (cs : Policy.ContextSettings) :
    0 ≤ Policy.apply_context_adjustment f w cs := by
  unfold Policy.apply_context_adjustment
  by_cases he : cs.enabled
  · simp [he, le_max_right]
  · simpa [he] using hw

/-- Each finding's contribution is non-negative. -/
theorem contribution_nonneg (p : Policy.PolicyDefinition) (f : Finding) :
    0 ≤ Policy.contribution p f := by
  unfold Policy.contribution
  cases h : p.rules_by_id f.rule_id with
  | none => simp [Policy.DEFAULT_RULE_WEIGHT]
  | some rule => exact apply_context_adjustment_nonneg f _ (le_max_right _ _) _

/-- C7: the returned risk_score is min(sum of per-finding contributions, 100);
each contribution is clamped at >= 0 before summation; a finding whose rule_id
is not found contributes exactly DEFAULT_RULE_WEIGHT = 10; and the final
risk_score lies in [0, 100]. -/
theorem evaluate_risk_score_spec (p : Policy.PolicyDefinition)
    (findings : List Finding) (bypass : Bool) :
    (Policy.evaluate p findings bypass).risk_score =
      min ((findings.map (Policy.contribution p)).sum) 100 ∧
    (∀ f, 0 ≤ Policy.contribution p f) ∧
    (∀ f, p.rules_by_id f.rule_id = Option.none →
      Policy.contribution p f = 10) ∧
    0 ≤ (Policy.evaluate p findings bypass).risk_score ∧
    (Policy.evaluate p findings bypass).risk_score ≤ 100 := by
  have hshape : (Policy.evaluate p findings bypass).risk_score =
      min ((findings.foldl (Policy.evalStep p bypass)
        { blocked := false, applied_rules := [], safe_message_key := Option.none,
          risk_score := 0 }).risk_score) 100 := rfl
  have hsum : (Policy.evaluate p findings bypass).risk_score =
      min ((findings.map (Policy.contribution p)).sum) 100 := by
    rw [hshape, evalFold_risk]
    simp
  refine ⟨hsum, contribution_nonneg p, ?_, ?_, ?_⟩
  · intro f hf
    unfold Policy.contribution
    rw [hf]
    rfl
  · rw [hsum]
    have : (0 : Int) ≤ (findings.map (Policy.contribution p)).sum := by
      apply List.sum_nonneg
      intro x hx
      obtain ⟨f, _, rfl⟩ := List.mem_map.mp hx
      exact contribution_nonneg p f
    exact le_min this (by norm_num)
  · rw [hsum]
    exact min_le_right _ _

/-- Witness for C7 at a concrete input: the empty policy and a single finding
with an unknown rule id. -/
theorem evaluate_risk_score_spec_witness :
    Policy.contribution cexPolicyAllow cexBlockFinding = 10 :=
  (evaluate_risk_score_spec cexPolicyAllow [cexBlockFinding] false).2.2.1
    cexBlockFinding (by decide)

/-- C6: the registry yields the detectors in the fixed order pii, exfil,
secret, url, cmd; and the detector loop short-circuits: if every earlier batch
is exception-free and block-free and some batch contains a finding with action
"block", the collected findings are exactly the earlier batches followed by
that batch — nothing from any later detector, which is never consumed. -/
theorem scan_all_order_and_short_circuit :
    (∀ (env : DetectorEnv) (content : PyStr) (policy : Policy.PolicyDefinition)
        (md : Detectors.Metadata),
      (Detectors.scan_all env content policy md).map Prod.fst =
        ["pii", "exfil", "secret", "url", "cmd"]) ∧
    (∀ (pre : List (String × Except String (List Finding))) (name : String)
        (fs : List Finding) (post : List (String × Except String (List Finding))),
      (∀ b ∈ pre, ∃ gs, b.2 = Except.ok gs ∧
        gs.any (fun f => f.action = "block") = false) →
      fs.any (fun f => f.action = "block") = true →
      Detectors.collectDetectorFindings (pre ++ (name, Except.ok fs) :: post) =
        Except.ok (pre.flatMap batchFindings ++ fs)) := by
  constructor
  · intro env content policy md
    rfl
  · intro pre
    induction pre with
    | nil =>
      intro name fs post _ hblock
      simp [Detectors.collectDetectorFindings, hblock]
    | cons b rest ih =>
      intro name fs post hpre hblock
      obtain ⟨gs, hb, hnoblock⟩ := hpre b (by simp)
      obtain ⟨bname, bres⟩ := b
      simp only at hb
      subst hb
      have htail := ih name fs post (fun x hx => hpre x (by simp [hx])) hblock
      simp [Detectors.collectDetectorFindings, hnoblock, htail, batchFindings]

/-- Witness for C6 at a concrete input: an empty pii batch followed by a
blocking batch; the erroring cmd entry after it is never reached. -/
theorem scan_all_order_and_short_circuit_witness :
    Detectors.collectDetectorFindings
      [("pii", Except.ok []), ("secret", Except.ok [cexBlockFinding]),
       ("cmd", Except.error "boom")] = Except.ok [cexBlockFinding] := by
  have h := scan_all_order_and_short_circuit.2 [("pii", Except.ok [])] "secret"
    [cexBlockFinding] [("cmd", Except.error "boom")]
    (by intro b hb; simp at hb; subst hb; exact ⟨[], rfl, rfl⟩)
    (by decide)
  simpa [batchFindings] using h

/-- C2 amended: an exception raised by a detector is not caught anywhere: once
the loop reaches the erroring detector (all earlier batches being ok and
block-free), the whole detector loop aborts with that exception and no
findings are returned. -/
theorem detector_error_propagates
    (pre : List (String × Except String (List Finding))) (name : String)
    (e : String) (post : List (String × Except String (List Finding)))
    (hpre : ∀ b ∈ pre, ∃ gs, b.2 = Except.ok gs ∧
      gs.any (fun f => f.action = "block") = false) :
    Detectors.collectDetectorFindings (pre ++ (name, Except.error e) :: post) =
      Except.error e := by
  induction pre with
  | nil => simp [Detectors.collectDetectorFindings]
  | cons b rest ih =>
    obtain ⟨gs, hb, hnoblock⟩ := hpre b (by simp)
    obtain ⟨bname, bres⟩ := b
    simp only at hb
    subst hb
    have htail := ih (fun x hx => hpre x (by simp [hx]))
    simp [Detectors.collectDetectorFindings, hnoblock, htail]

/-- Witness for the amended C2 at a concrete input. -/
theorem detector_error_propagates_witness :
    Detectors.collectDetectorFindings
      [("pii", Except.ok []), ("cmd", Except.error "re.error")] =
      Except.error "re.error" :=
  detector_error_propagates [("pii", Except.ok [])] "cmd" "re.error" []
    (by intro b hb; simp at hb; subst hb; exact ⟨[], rfl, rfl⟩)

/-- C2 counterexample: with a policy whose single cmd rule carries the custom
pattern "(" (which re.compile rejects), the pipeline's detector loop returns
the exception — it does not return a findings list, so a raising detector does
abort the pipeline instead of contributing zero findings. -/
theorem detector_exception_aborts_cex :
    Detectors.collectDetectorFindings
      (Detectors.scan_all cexEnv [] cexPolicyBadPattern []) =
      Except.error "re.error" := rfl

/-- C8: if the policy allowlists a candidate value for a rule and tenant (some
entry matches it under the constraint-set and value/regex semantics embedded
in AllowlistEntry.matches), then build_findings produces exactly the findings
it would produce with every match tuple for that candidate removed — an
allowlisted candidate never appears in the findings. -/
theorem build_findings_allowlist_excluded (env : DetectorEnv)
    (policy : Policy.PolicyDefinition) (rule : Policy.PolicyRule)
    (md : Detectors.Metadata) (value : PyStr)
    (h : Detectors.is_allowlisted env.eng policy rule value md = true) :
    ∀ ms : List Detectors.MatchTuple,
      Detectors.build_findings env policy rule ms md =
        Detectors.build_findings env policy rule
          (ms.filter (fun t => t.1 ≠ value)) md := by
  intro ms
  induction ms with
  | nil => rfl
  | cons t rest ih =>
    obtain ⟨v, sp, extra⟩ := t
    by_cases hv : v = value
    · subst hv
      simp only [Detectors.build_findings, h, if_true, List.filter_cons]
      have : (decide (v ≠ v)) = false := by simp
      simp [this, ih]
    · simp only [List.filter_cons]
      have hd : (decide (v ≠ value)) = true := by simp [hv]
      rw [hd]
      simp only [Detectors.build_findings]
      by_cases hall : Detectors.is_allowlisted env.eng policy rule v md = true
      · simp [hall, ih]
      · simp only [Bool.not_eq_true] at hall
        simp [hall, ih]

/-- Witness for C8 at a concrete input: the exact-value allowlist entry for
"x" drops the first match tuple and keeps the second. -/
theorem build_findings_allowlist_excluded_witness :
    Detectors.build_findings cexEnv cexPolicyAllow
      (cexPolicyAllow.rules.headD
        { id := "", type := "", action := "", kind := Option.none,
          pattern := Option.none, severity := "", risk_weight := 0,
          safe_message := Option.none })
      [(['x'], (0, 1), []), (['y'], (1, 2), [])] [] =
    Detectors.build_findings cexEnv cexPolicyAllow
      (cexPolicyAllow.rules.headD
        { id := "", type := "", action := "", kind := Option.none,
          pattern := Option.none, severity := "", risk_weight := 0,
          safe_message := Option.none })
      ([(['x'], (0, 1), []), (['y'], (1, 2), [])].filter
        (fun t => t.1 ≠ ['x'])) [] :=
  build_findings_allowlist_excluded cexEnv cexPolicyAllow _ [] ['x'] (by decide)
    [(['x'], (0, 1), []), (['y'], (1, 2), [])]

/-- C4 counterexample: a mask finding whose span is (5, 3) — start > end — is
NOT skipped by action application on a non-blocked decision: its replacement
is inserted after text[0:5] and the cursor retreats only to 3, so the
characters "lo" of "hello" are emitted twice and the output differs from the
input. -/
theorem degenerate_span_not_skipped_cex :
    Actions.apply_actions (fun _ => []) "hello".data [cexC4finding]
        cexDecisionOpen = "helloXlo".data ∧
    "helloXlo".data ≠ "hello".data := by decide

/-- The cursor walk ignores exactly the spans with negative start (they always
satisfy start < cursor because the cursor never goes below 0). -/
theorem applyRepGo_filter_nonneg (text : PyStr) :
    ∀ (l : List (Int × Int × String)) (cursor : Int), 0 ≤ cursor →
      Actions.applyRepGo text l cursor =
        Actions.applyRepGo text (l.filter (fun r => decide (0 ≤ r.1))) cursor := by
  intro l
  induction l with
  | nil => intro cursor _; rfl
  | cons x rest ih =>
    intro cursor hc
    obtain ⟨s, e, r⟩ := x
    by_cases hs : (0 : Int) ≤ s
    · by_cases hlt : s < cursor
      · simp [Actions.applyRepGo, List.filter_cons, hlt, hs, ih cursor hc]
      · have hc2 : (0 : Int) ≤ max cursor e := le_trans hc (le_max_left _ _)
        simp [Actions.applyRepGo, List.filter_cons, hlt, hs, ih _ hc2]
    · have hlt : s < cursor := lt_of_lt_of_le (not_le.mp hs) hc
      simp [Actions.applyRepGo, List.filter_cons, hlt, hs, ih cursor hc]

/-- Filtering by a predicate whose complement is downward-closed in the sort
key commutes with stable insertion. -/
theorem filter_insertByStart (p : Int × Int × String → Bool)
    (hp : ∀ a b, p a = true → p b = false → b.1 ≤ a.1)
    (x : Int × Int × String) (l : List (Int × Int × String)) :
    (Actions.insertByStart x l).filter p =
      if p x then Actions.insertByStart x (l.filter p) else l.filter p := by
  induction l with
  | nil => cases hx : p x <;> simp [Actions.insertByStart, List.filter_cons, hx]
  | cons y rest ih =>
    by_cases hle : y.1 ≤ x.1
    · cases hy : p y
      · simp only [Actions.insertByStart, hle, if_true, List.filter_cons, hy]
        simpa [hy] using ih
      · cases hx : p x
        · simp [Actions.insertByStart, hle, List.filter_cons, hy, hx,
            ih, Actions.insertByStart]
        · simp [Actions.insertByStart, hle, List.filter_cons, hy, hx, ih]
    · cases hx : p x
      · -- x dropped by the filter
        simp [Actions.insertByStart, hle, List.filter_cons, hx]
      · cases hy : p y
        · -- p x true, p y false: the key hypothesis contradicts ¬(y.1 ≤ x.1)
          exact absurd (hp x y hx hy) hle
        · simp [Actions.insertByStart, hle, List.filter_cons, hx, hy]

/-- Filtering commutes with the stable sort for such predicates. -/
theorem filter_sortByStart (p : Int × Int × String → Bool)
    (hp : ∀ a b, p a = true → p b = false → b.1 ≤ a.1)
    (l : List (Int × Int × String)) :
    (Actions.sortByStart l).filter p = Actions.sortByStart (l.filter p) := by
  induction l with
  | nil => rfl
  | cons x rest ih =>
    simp only [Actions.sortByStart, List.filter_cons]
    rw [filter_insertByStart p hp, ih]
    cases hx : p x <;> simp [Actions.sortByStart]

/-- Python text[0:] is the whole text. -/
theorem pySliceFrom_zero (text : PyStr) : pySliceFrom text 0 = text := by
  unfold pySliceFrom pySlice
  have h1 : ¬((0 : Int) < 0) := by norm_num
  have h2 : ¬((text.length : Int) < 0) := not_lt.mpr (Int.natCast_nonneg _)
  have h3 : min (0 : Int) (text.length : Int) = 0 :=
    min_eq_left (Int.natCast_nonneg _)
  simp [h1, h2, h3]

/-- _apply_replacements produces the same output with every negative-start
replacement removed. -/
theorem apply_replacements_filter_nonneg (text : PyStr)
    (l : List (Int × Int × String)) :
    Actions.apply_replacements text l =
      Actions.apply_replacements text
        (l.filter (fun r => decide (0 ≤ r.1))) := by
  have hp : ∀ a b : Int × Int × String, (decide (0 ≤ a.1)) = true →
      (decide (0 ≤ b.1)) = false → b.1 ≤ a.1 := by
    intro a b ha hb
    simp only [decide_eq_true_eq] at ha
    simp only [decide_eq_false_iff_not, not_le] at hb
    exact le_trans (le_of_lt hb) ha
  unfold Actions.apply_replacements
  by_cases h : l.isEmpty
  · have hnil : l = [] := by simpa [List.isEmpty_iff] using h
    subst hnil
    simp
  · rw [if_neg (by simpa using h)]
    by_cases h2 : (l.filter (fun r => decide (0 ≤ r.1))).isEmpty
    · rw [if_pos h2]
      have hfe : l.filter (fun r => decide (0 ≤ r.1)) = [] := by
        simpa [List.isEmpty_iff] using h2
      have hgo := applyRepGo_filter_nonneg text (Actions.sortByStart l) 0 le_rfl
      rw [hgo, filter_sortByStart _ hp, hfe]
      simp [Actions.sortByStart, Actions.applyRepGo, pySliceFrom_zero]
    · rw [if_neg h2]
      have hgo := applyRepGo_filter_nonneg text (Actions.sortByStart l) 0 le_rfl
      rw [hgo, filter_sortByStart _ hp]

/-- C4 amended: on a non-blocked decision, span arithmetic is total (the
embedding is a total function and Python slicing clamps), and a replacement
span is silently skipped exactly when its start lies before the cursor — in
particular every negative-start span is dropped without affecting the output;
but spans with start ≥ end or beyond the text are processed, not skipped (see
the counterexample). -/
theorem apply_actions_drops_negative_starts (renderSafe : Option String → PyStr)
    (parsed_text : PyStr) (findings : List Finding)
    (decision : Policy.PolicyDecision) (hnb : decision.blocked = false) :
    Actions.apply_actions renderSafe parsed_text findings decision =
      Actions.apply_replacements parsed_text
        ((Actions.collect_replacements findings).filter
          (fun r => decide (0 ≤ r.1))) := by
  unfold Actions.apply_actions
  rw [hnb]
  simpa using apply_replacements_filter_nonneg parsed_text
    (Actions.collect_replacements findings)

/-- Witness for the amended C4 at a concrete input. -/
theorem apply_actions_drops_negative_starts_witness :
    Actions.apply_actions (fun _ => []) "ab".data [cexC4finding] cexDecisionOpen =
      Actions.apply_replacements "ab".data
        ((Actions.collect_replacements [cexC4finding]).filter
          (fun r => decide (0 ≤ r.1))) :=
  apply_actions_drops_negative_starts (fun _ => []) "ab".data [cexC4finding]
    cexDecisionOpen rfl

/-- Every character of the CRLF-replaced text is a character of the original
text or a line feed. -/
theorem mem_replaceCRLF {c : Char} :
    ∀ l : PyStr, c ∈ Normalize.replaceCRLF l → c ∈ l ∨ c = '\n' := by
  intro l
  induction l using Normalize.replaceCRLF.induct with
  | case1 rest ih =>
    intro h
    rw [Normalize.replaceCRLF] at h
    rcases List.mem_cons.mp h with rfl | h2
    · exact Or.inr rfl
    · rcases ih h2 with h3 | h3
      · exact Or.inl (List.mem_cons_of_mem _ (List.mem_cons_of_mem _ h3))
      · exact Or.inr h3
  | case2 d rest hne ih =>
    intro h
    rw [Normalize.replaceCRLF] at h
    · rcases List.mem_cons.mp h with rfl | h2
      · exact Or.inl (List.mem_cons_self _ _)
      · rcases ih h2 with h3 | h3
        · exact Or.inl (List.mem_cons_of_mem _ h3)
        · exact Or.inr h3
    · exact hne
  | case3 => intro h; simp [Normalize.replaceCRLF] at h

/-- The normalizer's output text is the newline stage applied to the output of
the control-strip stage, itself applied to the output of the zero-width-strip
stage, for some intermediate text v. -/
theorem normalize_text_shape (lib : Normalize.PyStdlib) (budget : Bool)
    (maxU : Nat) (value : PyStr) :
    ∃ v : PyStr,
      (Normalize.normalize_text lib budget maxU value).text =
        (if Normalize.containsCRLF
            (Normalize.strip_control_characters lib
              (Normalize.strip_zero_width_characters v).1).1 then
          Normalize.replaceCRLF
            (Normalize.strip_control_characters lib
              (Normalize.strip_zero_width_characters v).1).1
        else
          (Normalize.strip_control_characters lib
            (Normalize.strip_zero_width_characters v).1).1) :=
  ⟨_, rfl⟩

/-- Characters of the normalizer's output are never zero-width, and are
category-C only when among the allowed control characters. -/
theorem normalize_text_chars (lib : Normalize.PyStdlib) (budget : Bool)
    (maxU : Nat) (value : PyStr) :
    ∀ c ∈ (Normalize.normalize_text lib budget maxU value).text,
      Normalize.ZERO_WIDTH_CHARS.contains c = false ∧
      (lib.categoryC c = true → c ∈ Normalize.ALLOWED_CONTROL_CHARS) := by
  obtain ⟨v, hv⟩ := normalize_text_shape lib budget maxU value
  intro c hc
  rw [hv] at hc
  set v5 := (Normalize.strip_zero_width_characters v).1 with hv5
  set v6 := (Normalize.strip_control_characters lib v5).1 with hv6
  have hmem : c ∈ v6 ∨ c = '\n' := by
    by_cases hcr : Normalize.containsCRLF v6
    · rw [if_pos hcr] at hc
      exact mem_replaceCRLF v6 hc
    · rw [if_neg hcr] at hc
      exact Or.inl hc
  rcases hmem with hmem | rfl
  · have h6 : c ∈ v5 ∧ (Normalize.ALLOWED_CONTROL_CHARS.contains c ||
        !(lib.categoryC c)) = true := by
      rw [hv6] at hmem
      unfold Normalize.strip_control_characters at hmem
      simpa using List.mem_filter.mp hmem
    have h5 : (!(Normalize.ZERO_WIDTH_CHARS.contains c)) = true := by
      have h51 := h6.1
      rw [hv5] at h51
      unfold Normalize.strip_zero_width_characters at h51
      exact (List.mem_filter.mp h51).2
    refine ⟨by simpa using h5, ?_⟩
    intro hcat
    rcases Bool.or_eq_true_iff.mp h6.2 with hAll | hno
    · simpa using hAll
    · rw [hcat] at hno
      simp at hno
  · exact ⟨by decide, fun _ => by decide⟩

/-- C9: for every stdlib behaviour (in particular the real category function)
and every input string, the text returned by normalize_text contains no
character in U+200B..U+200F, U+2060, U+FEFF, and no character whose Unicode
general category starts with C other than newline, carriage return and tab. -/
theorem normalize_output_no_banned_chars (lib : Normalize.PyStdlib)
    (budget : Bool) (maxU : Nat) (value : PyStr) :
    ∀ c ∈ (Normalize.normalize_text lib budget maxU value).text,
      c ∉ Normalize.ZERO_WIDTH_CHARS ∧
      (lib.categoryC c = true → c = '\n' ∨ c = '\r' ∨ c = '\t') := by
  intro c hc
  obtain ⟨hzw, hcat⟩ := normalize_text_chars lib budget maxU value c hc
  refine ⟨?_, ?_⟩
  · intro hmem
    simp at hzw
    exact hzw hmem
  · intro h
    have hmem := hcat h
    simpa [Normalize.ALLOWED_CONTROL_CHARS] using hmem

/-- Witness for C9 at a concrete input. -/
theorem normalize_output_no_banned_chars_witness :
    'a' ∉ Normalize.ZERO_WIDTH_CHARS ∧
    (Normalize.pyLib.categoryC 'a' = true →
      'a' = '\n' ∨ 'a' = '\r' ∨ 'a' = '\t') :=
  normalize_output_no_banned_chars Normalize.pyLib false 1000 ['a'] 'a'
    (by decide)

/-- C3 amended: the stripping stages are exhausted on the normalizer's output
— re-running the zero-width strip or the control strip on normalize(x).text
returns the text unchanged with the mutation flag false — but the full
normalize_text is not a fixed point on its own output (see the
counterexample: capped decodes and the single-pass CRLF replacement can leave
text that a second pass rewrites). -/
theorem normalize_strip_stages_fixed (lib : Normalize.PyStdlib) (budget : Bool)
    (maxU : Nat) (value : PyStr) :
    Normalize.strip_zero_width_characters
        (Normalize.normalize_text lib budget maxU value).text =
      ((Normalize.normalize_text lib budget maxU value).text, false) ∧
    Normalize.strip_control_characters lib
        (Normalize.normalize_text lib budget maxU value).text =
      ((Normalize.normalize_text lib budget maxU value).text, false) := by
  have hchars := normalize_text_chars lib budget maxU value
  constructor
  · unfold Normalize.strip_zero_width_characters
    have hfix : (Normalize.normalize_text lib budget maxU value).text.filter
        (fun c => !(Normalize.ZERO_WIDTH_CHARS.contains c)) =
        (Normalize.normalize_text lib budget maxU value).text := by
      apply List.filter_eq_self.mpr
      intro a ha
      have h1 := (hchars a ha).1
      simp only [h1, Bool.not_false]
    rw [hfix]
    simp
  · unfold Normalize.strip_control_characters
    have hfix : (Normalize.normalize_text lib budget maxU value).text.filter
        (fun c => Normalize.ALLOWED_CONTROL_CHARS.contains c || !(lib.categoryC c)) =
        (Normalize.normalize_text lib budget maxU value).text := by
      apply List.filter_eq_self.mpr
      intro a ha
      by_cases hcat : lib.categoryC a = true
      · have hm : a ∈ Normalize.ALLOWED_CONTROL_CHARS := (hchars a ha).2 hcat
        simp [hm]
      · simp only [Bool.not_eq_true] at hcat
        simp [hcat]
    have hany : (Normalize.normalize_text lib budget maxU value).text.any
        (fun c => !(Normalize.ALLOWED_CONTROL_CHARS.contains c) && lib.categoryC c) =
        false := by
      rw [← Bool.not_eq_true, List.any_eq_true]
      rintro ⟨a, ha, hpred⟩
      have hpred2 : (!(Normalize.ALLOWED_CONTROL_CHARS.contains a)) = true ∧
          lib.categoryC a = true := by simpa using hpred
      have hm : a ∈ Normalize.ALLOWED_CONTROL_CHARS := (hchars a ha).2 hpred2.2
      have := hpred2.1
      simp [hm] at this
    rw [hfix, hany]

/-- C3 counterexample: normalize("\r\r\n").text is "\r\n" (the single
str.replace pass consumes the second and third characters, leaving a fresh
CRLF), and normalizing that output again gives "\n" — normalization is not
idempotent on its own output. -/
theorem normalize_not_idempotent_cex :
    (Normalize.normalize_text Normalize.pyLib false 1000
        ['\r', '\r', '\n']).text = ['\r', '\n'] ∧
    (Normalize.normalize_text Normalize.pyLib false 1000
        (Normalize.normalize_text Normalize.pyLib false 1000
          ['\r', '\r', '\n']).text).text = ['\n'] ∧
    (Normalize.normalize_text Normalize.pyLib false 1000
        (Normalize.normalize_text Normalize.pyLib false 1000
          ['\r', '\r', '\n']).text).text ≠
      (Normalize.normalize_text Normalize.pyLib false 1000
        ['\r', '\r', '\n']).text := by decide

/-- Findings built by detectors carry the dataclass defaults context = "text"
and explain_only = false. -/
theorem build_findings_defaults (env : DetectorEnv)
    (policy : Policy.PolicyDefinition) (rule : Policy.PolicyRule)
    (md : Detectors.Metadata) :
    ∀ ms : List Detectors.MatchTuple,
      ∀ g ∈ Detectors.build_findings env policy rule ms md,
        g.context = "text" ∧ g.explain_only = false := by
  intro ms
  induction ms with
  | nil => intro g hg; simp [Detectors.build_findings] at hg
  | cons t rest ih =>
    intro g hg
    obtain ⟨v, sp, extra⟩ := t
    by_cases hall : Detectors.is_allowlisted env.eng policy rule v md = true
    · rw [Detectors.build_findings, if_pos hall] at hg
      exact ih g hg
    · rw [Detectors.build_findings, if_neg hall] at hg
      rcases List.mem_cons.mp hg with rfl | hg2
      · exact ⟨rfl, rfl⟩
      · exact ih g hg2

/-- C10: a finding whose span start lies in no parsed segment and whose span
overlaps no segment is annotated with context "text" and explain_only false;
a finding whose detail carries no span is left untouched by the annotation
pass — and detector-built findings carry exactly the defaults context "text"
and explain_only false. -/
theorem annotate_gap_and_spanless_defaults (parsed : Parser.ParsedContent)
    (f : Finding) :
    (∀ a b : Int, dget f.detail "span" = Option.some (DVal.span a b) →
      parsed.get_segment_at_offset a = Option.none →
      parsed.get_segments_in_range a b = [] →
      Parser.annotate_finding parsed f =
        { f with context := "text", explain_only := false }) ∧
    (dget f.detail "span" = Option.none → Parser.annotate_finding parsed f = f) ∧
    (∀ (env : DetectorEnv) (policy : Policy.PolicyDefinition)
        (rule : Policy.PolicyRule) (ms : List Detectors.MatchTuple)
        (md : Detectors.Metadata),
      ∀ g ∈ Detectors.build_findings env policy rule ms md,
        g.context = "text" ∧ g.explain_only = false) := by
  refine ⟨?_, ?_, ?_⟩
  · intro a b hspan hseg hrange
    have hred : Parser.annotate_finding parsed f =
        { f with context := (Parser.get_context_for_finding a b parsed).1,
                 explain_only := (Parser.get_context_for_finding a b parsed).2 } := by
      unfold Parser.annotate_finding
      rw [hspan]
    have hctx : Parser.get_context_for_finding a b parsed = ("text", false) := by
      unfold Parser.get_context_for_finding
      rw [hseg, hrange]
      rfl
    rw [hred, hctx]
  · intro hnone
    unfold Parser.annotate_finding
    rw [hnone]
  · intro env policy rule ms md
    exact build_findings_defaults env policy rule md ms

/-- Witness for C10 at a concrete input: the finding with span [9,10) inside
the whitespace-only gap the parser dropped between the two code segments. -/
theorem annotate_gap_and_spanless_defaults_witness :
    Parser.annotate_finding cexParsed cexC10finding =
      { cexC10finding with context := "text", explain_only := false } :=
  (annotate_gap_and_spanless_defaults cexParsed cexC10finding).1 9 10
    (by decide) (by decide) (by decide)

/-- dict assignment under a key other than "span" keeps a span entry at the
head of the detail. -/
theorem dset_span_head (k : String) (v : DVal) (sv : DVal) (tl : Detail)
    (hk : k ≠ "span") :
    ∃ tl2, dset (("span", sv) :: tl) k v = ("span", sv) :: tl2 := by
  unfold dset
  by_cases h : (((("span", sv) :: tl).find? (fun p => p.1 = k)).isSome) = true
  · rw [if_pos h]
    refine ⟨tl.map (fun p => if p.1 = k then (k, v) else p), ?_⟩
    simp [Ne.symm hk]
  · rw [if_neg h]
    exact ⟨tl ++ [(k, v)], by simp⟩

/-- dict.update with span-free extra detail keeps the span entry at the head. -/
theorem dupdate_span_head (extra : Detail) :
    ∀ (sv : DVal) (tl : Detail), (∀ q ∈ extra, q.1 ≠ "span") →
      ∃ tl2, dupdate (("span", sv) :: tl) extra = ("span", sv) :: tl2 := by
  induction extra with
  | nil => intro sv tl _; exact ⟨tl, rfl⟩
  | cons q qs ih =>
    intro sv tl hq
    obtain ⟨tl2, h2⟩ := dset_span_head q.1 q.2 sv tl (hq q (List.mem_cons_self _ _))
    have hstep : dupdate (("span", sv) :: tl) (q :: qs) =
        dupdate (dset (("span", sv) :: tl) q.1 q.2) qs := rfl
    rw [hstep, h2]
    exact ih sv tl2 (fun x hx => hq x (List.mem_cons_of_mem _ hx))

/-- dict.get "span" on a detail whose head is the span entry, after the
rule_id setdefault. -/
theorem dget_span_after_setdefault (sv : DVal) (tl : Detail) (v : DVal) :
    dget (dsetdefault (("span", sv) :: tl) "rule_id" v) "span" =
      Option.some sv := by
  unfold dsetdefault
  by_cases h : (((("span", sv) :: tl).find? (fun p => p.1 = "rule_id")).isSome) = true
  · rw [if_pos h]
    simp [dget, List.find?]
  · rw [if_neg h]
    simp [dget, List.find?]

/-- Findings built from well-formed match tuples carry a well-formed span. -/
theorem build_findings_span (env : DetectorEnv) (policy : Policy.PolicyDefinition)
    (rule : Policy.PolicyRule) (md : Detectors.Metadata) (text : PyStr) :
    ∀ ms : List Detectors.MatchTuple, (∀ t ∈ ms, TupleOk text t) →
      ∀ f ∈ Detectors.build_findings env policy rule ms md,
        FindingSpanOk text f := by
  intro ms
  induction ms with
  | nil => intro _ f hf; simp [Detectors.build_findings] at hf
  | cons t rest ih =>
    intro hms f hf
    obtain ⟨v, sp, extra⟩ := t
    by_cases hall : Detectors.is_allowlisted env.eng policy rule v md = true
    · rw [Detectors.build_findings, if_pos hall] at hf
      exact ih (fun x hx => hms x (List.mem_cons_of_mem _ hx)) f hf
    · rw [Detectors.build_findings, if_neg hall] at hf
      rcases List.mem_cons.mp hf with rfl | hf2
      · obtain ⟨hok1, hok2, hok3⟩ := hms (v, sp, extra) (List.mem_cons_self _ _)
        refine ⟨sp.1, sp.2, ?_, hok1, hok2⟩
        obtain ⟨tl2, h2⟩ := dupdate_span_head extra
          (DVal.span (Int.ofNat sp.1) (Int.ofNat sp.2))
          [("kind", match rule.kind with
                    | Option.none => DVal.none
                    | Option.some k => DVal.str k),
           ("snippet_hash", DVal.str (Detectors.hash_snippet env v))] hok3
        show dget (dsetdefault (dupdate _ extra) "rule_id" (DVal.str rule.id))
          "span" = _
        rw [h2]
        exact dget_span_after_setdefault _ _ _
      · exact ih (fun x hx => hms x (List.mem_cons_of_mem _ hx)) f hf2

/-- A scanner that maps finditer matches to tuples keeping the match span and
using span-free extra detail produces well-formed tuples. -/
theorem tupleOk_of_map (eng : RegexEngine) (hWF : eng.SpanWF) (pat : Pat)
    (text : PyStr) (g : ReMatch → Detectors.MatchTuple)
    (hg : ∀ m, (g m).2.1 = (m.start, m.stop) ∧ ∀ q ∈ (g m).2.2, q.1 ≠ "span") :
    ∀ t ∈ (eng.finditer pat text).map g, TupleOk text t := by
  intro t ht
  obtain ⟨m, hm, rfl⟩ := List.mem_map.mp ht
  obtain ⟨h1, h2, _⟩ := hWF pat text m hm
  obtain ⟨hsp, hkeys⟩ := hg m
  refine ⟨?_, ?_, hkeys⟩
  · show (g m).2.1.1 ≤ (g m).2.1.2
    rw [hsp]
    exact h1
  · show (g m).2.1.2 ≤ text.length
    rw [hsp]
    exact h2

/-- Same for a scanner that filterMaps finditer matches. -/
theorem tupleOk_of_filterMap (eng : RegexEngine) (hWF : eng.SpanWF) (pat : Pat)
    (text : PyStr) (g : ReMatch → Option Detectors.MatchTuple)
    (hg : ∀ m t, g m = Option.some t →
      t.2.1 = (m.start, m.stop) ∧ ∀ q ∈ t.2.2, q.1 ≠ "span") :
    ∀ t ∈ (eng.finditer pat text).filterMap g, TupleOk text t := by
  intro t ht
  obtain ⟨m, hm, hgm⟩ := List.mem_filterMap.mp ht
  obtain ⟨h1, h2, _⟩ := hWF pat text m hm
  obtain ⟨hsp, hkeys⟩ := hg m t hgm
  refine ⟨?_, ?_, hkeys⟩
  · rw [hsp]
    exact h1
  · rw [hsp]
    exact h2

/-- Three fixed detail keys other than "span". -/
theorem keysNeSpan3 (k1 k2 k3 : String) (v1 v2 v3 : DVal)
    (h1 : k1 ≠ "span") (h2 : k2 ≠ "span") (h3 : k3 ≠ "span") :
    ∀ q ∈ [(k1, v1), (k2, v2), (k3, v3)], q.1 ≠ "span" := by
  intro q hq
  simp only [List.mem_cons, List.not_mem_nil, or_false] at hq
  rcases hq with rfl | rfl | rfl
  · exact h1
  · exact h2
  · exact h3

/-- Four fixed detail keys other than "span". -/
theorem keysNeSpan4 (k1 k2 k3 k4 : String) (v1 v2 v3 v4 : DVal)
    (h1 : k1 ≠ "span") (h2 : k2 ≠ "span") (h3 : k3 ≠ "span")
    (h4 : k4 ≠ "span") :
    ∀ q ∈ [(k1, v1), (k2, v2), (k3, v3), (k4, v4)], q.1 ≠ "span" := by
  intro q hq
  simp only [List.mem_cons, List.not_mem_nil, or_false] at hq
  rcases hq with rfl | rfl | rfl | rfl
  · exact h1
  · exact h2
  · exact h3
  · exact h4

/-- Five fixed detail keys other than "span". -/
theorem keysNeSpan5 (k1 k2 k3 k4 k5 : String) (v1 v2 v3 v4 v5 : DVal)
    (h1 : k1 ≠ "span") (h2 : k2 ≠ "span") (h3 : k3 ≠ "span")
    (h4 : k4 ≠ "span") (h5 : k5 ≠ "span") :
    ∀ q ∈ [(k1, v1), (k2, v2), (k3, v3), (k4, v4), (k5, v5)], q.1 ≠ "span" := by
  intro q hq
  simp only [List.mem_cons, List.not_mem_nil, or_false] at hq
  rcases hq with rfl | rfl | rfl | rfl | rfl
  · exact h1
  · exact h2
  · exact h3
  · exact h4
  · exact h5

/-- Spans of the email scanner. -/
theorem scan_emails_ok (env : DetectorEnv) (hWF : env.eng.SpanWF) (text : PyStr) :
    ∀ t ∈ Pii.scan_emails env text, TupleOk text t := by
  unfold Pii.scan_emails
  apply tupleOk_of_map env.eng hWF
  intro m
  exact ⟨rfl, keysNeSpan3 "masked" "replacement" "preview" _ _ _
    (by decide) (by decide) (by decide)⟩

/-- Spans of the phone scanner. -/
theorem scan_phone_ok (env : DetectorEnv) (hWF : env.eng.SpanWF) (text : PyStr)
    (key : String) :
    ∀ t ∈ Pii.scan_phone env text key, TupleOk text t := by
  unfold Pii.scan_phone
  apply tupleOk_of_filterMap env.eng hWF
  intro m t hgt
  unfold_let at hgt
  split at hgt
  · exact absurd hgt (by simp)
  · cases hgt
    exact ⟨rfl, keysNeSpan4 "masked" "replacement" "preview" "pattern" _ _ _ _
      (by decide) (by decide) (by decide) (by decide)⟩

/-- Spans of the IBAN scanner. -/
theorem scan_iban_ok (env : DetectorEnv) (hWF : env.eng.SpanWF) (text : PyStr)
    (pat : Pat) (country : String) :
    ∀ t ∈ Pii.scan_iban env text pat country, TupleOk text t := by
  unfold Pii.scan_iban
  apply tupleOk_of_filterMap env.eng hWF
  intro m t hgt
  unfold_let at hgt
  split at hgt
  all_goals
    split at hgt
    · exact absurd hgt (by simp)
    · cases hgt
      exact ⟨rfl, keysNeSpan3 "masked" "replacement" "preview" _ _ _
        (by decide) (by decide) (by decide)⟩

/-- Spans of the TCKN scanner. -/
theorem scan_tckn_ok (env : DetectorEnv) (hWF : env.eng.SpanWF) (text : PyStr) :
    ∀ t ∈ Pii.scan_tckn env text, TupleOk text t := by
  unfold Pii.scan_tckn
  apply tupleOk_of_filterMap env.eng hWF
  intro m t hgt
  unfold_let at hgt
  split at hgt
  · exact absurd hgt (by simp)
  · cases hgt
    exact ⟨rfl, keysNeSpan3 "masked" "replacement" "preview" _ _ _
      (by decide) (by decide) (by decide)⟩

/-- Spans of the PAN scanner. -/
theorem scan_pan_ok (env : DetectorEnv) (hWF : env.eng.SpanWF) (text : PyStr) :
    ∀ t ∈ Pii.scan_pan env text, TupleOk text t := by
  unfold Pii.scan_pan
  apply tupleOk_of_filterMap env.eng hWF
  intro m t hgt
  unfold_let at hgt
  split at hgt
  · exact absurd hgt (by simp)
  · cases hgt
    exact ⟨rfl, keysNeSpan3 "masked" "replacement" "preview" _ _ _
      (by decide) (by decide) (by decide)⟩

/-- Spans of the IPv4 scanner. -/
theorem scan_ipv4_ok (env : DetectorEnv) (hWF : env.eng.SpanWF) (text : PyStr) :
    ∀ t ∈ Pii.scan_ipv4 env text, TupleOk text t := by
  unfold Pii.scan_ipv4
  apply tupleOk_of_map env.eng hWF
  intro m
  exact ⟨rfl, keysNeSpan3 "masked" "replacement" "preview" _ _ _
    (by decide) (by decide) (by decide)⟩

/-- The pii kind dispatch only produces well-formed tuples. -/
theorem pii_runScanner_ok (env : DetectorEnv) (hWF : env.eng.SpanWF)
    (text : PyStr) (rule : Policy.PolicyRule) (ms : List Detectors.MatchTuple)
    (h : Pii.runScanner env text rule = Option.some ms) :
    ∀ t ∈ ms, TupleOk text t := by
  unfold Pii.runScanner at h
  split_ifs at h <;> cases h
  · exact scan_emails_ok env hWF text
  · exact scan_phone_ok env hWF text _
  · exact scan_iban_ok env hWF text _ _
  · exact scan_iban_ok env hWF text _ _
  · exact scan_tckn_ok env hWF text
  · exact scan_pan_ok env hWF text
  · exact scan_ipv4_ok env hWF text

/-- Spans of the pii detector's findings. -/
theorem pii_scan_spans (env : DetectorEnv) (hWF : env.eng.SpanWF) (text : PyStr)
    (policy : Policy.PolicyDefinition) (md : Detectors.Metadata) :
    ∀ f ∈ Pii.scan env text policy md, FindingSpanOk text f := by
  unfold Pii.scan
  generalize policy.iter_rules "pii" = rules
  induction rules with
  | nil => intro f hf; simp [Pii.scanRules] at hf
  | cons rule rest ih =>
    intro f hf
    rw [Pii.scanRules] at hf
    rcases hs : Pii.runScanner env text rule with _ | ms
    · rw [hs] at hf
      exact ih f hf
    · rw [hs] at hf
      rcases List.mem_append.mp hf with hf1 | hf2
      · exact build_findings_span env policy rule md text ms
          (pii_runScanner_ok env hWF text rule ms hs) f hf1
      · exact ih f hf2

/-- Spans of the base64 exfil scanner. -/
theorem scan_base64_ok (env : DetectorEnv) (hWF : env.eng.SpanWF) (text : PyStr) :
    ∀ t ∈ Exfil.scan_base64 env text, TupleOk text t := by
  unfold Exfil.scan_base64
  apply tupleOk_of_filterMap env.eng hWF
  intro m t hgt
  unfold_let at hgt
  split at hgt
  · exact absurd hgt (by simp)
  · cases hgt
    exact ⟨rfl, keysNeSpan4 "masked" "replacement" "preview" "length" _ _ _ _
      (by decide) (by decide) (by decide) (by decide)⟩

/-- Spans of the hex exfil scanner. -/
theorem scan_hex_ok (env : DetectorEnv) (hWF : env.eng.SpanWF) (text : PyStr) :
    ∀ t ∈ Exfil.scan_hex env text, TupleOk text t := by
  unfold Exfil.scan_hex
  apply tupleOk_of_filterMap env.eng hWF
  intro m t hgt
  unfold_let at hgt
  split at hgt
  · exact absurd hgt (by simp)
  · cases hgt
    exact ⟨rfl, keysNeSpan4 "masked" "replacement" "preview" "length" _ _ _ _
      (by decide) (by decide) (by decide) (by decide)⟩

/-- Spans of the exfil detector's findings. -/
theorem exfil_scan_spans (env : DetectorEnv) (hWF : env.eng.SpanWF)
    (text : PyStr) (policy : Policy.PolicyDefinition) (md : Detectors.Metadata) :
    ∀ f ∈ Exfil.scan env text policy md, FindingSpanOk text f := by
  unfold Exfil.scan
  generalize policy.iter_rules "exfil" = rules
  induction rules with
  | nil => intro f hf; simp [Exfil.scanRules] at hf
  | cons rule rest ih =>
    intro f hf
    rw [Exfil.scanRules] at hf
    split_ifs at hf
    · rcases List.mem_append.mp hf with hf1 | hf2
      · exact build_findings_span env policy rule md text _
          (scan_base64_ok env hWF text) f hf1
      · exact ih f hf2
    · rcases List.mem_append.mp hf with hf1 | hf2
      · exact build_findings_span env policy rule md text _
          (scan_hex_ok env hWF text) f hf1
      · exact ih f hf2
    · exact ih f hf

/-- Spans of the secrets custom-pattern matcher. -/
theorem secrets_regex_matches_ok (env : DetectorEnv) (hWF : env.eng.SpanWF)
    (pat : Pat) (text : PyStr) :
    ∀ t ∈ Secrets.regex_matches env pat text, TupleOk text t := by
  unfold Secrets.regex_matches
  apply tupleOk_of_map env.eng hWF
  intro m
  exact ⟨rfl, keysNeSpan3 "masked" "replacement" "preview" _ _ _
    (by decide) (by decide) (by decide)⟩

/-- Spans of the JWT scanner. -/
theorem scan_jwt_ok (env : DetectorEnv) (hWF : env.eng.SpanWF) (text : PyStr) :
    ∀ t ∈ Secrets.scan_jwt env text, TupleOk text t := by
  unfold Secrets.scan_jwt
  apply tupleOk_of_filterMap env.eng hWF
  intro m t hgt
  split at hgt
  · exact absurd hgt (by simp)
  · cases hgt
    exact ⟨rfl, keysNeSpan4 "masked" "replacement" "preview" "reason" _ _ _ _
      (by decide) (by decide) (by decide) (by decide)⟩

/-- Spans of the AWS access-key scanner. -/
theorem scan_aws_access_keys_ok (env : DetectorEnv) (hWF : env.eng.SpanWF)
    (text : PyStr) :
    ∀ t ∈ Secrets.scan_aws_access_keys env text, TupleOk text t := by
  unfold Secrets.scan_aws_access_keys
  apply tupleOk_of_map env.eng hWF
  intro m
  exact ⟨rfl, keysNeSpan4 "masked" "replacement" "preview" "reason" _ _ _ _
    (by decide) (by decide) (by decide) (by decide)⟩

/-- Spans of the AWS secret-key scanner. -/
theorem scan_aws_secret_keys_ok (env : DetectorEnv) (hWF : env.eng.SpanWF)
    (text : PyStr) :
    ∀ t ∈ Secrets.scan_aws_secret_keys env text, TupleOk text t := by
  unfold Secrets.scan_aws_secret_keys
  apply tupleOk_of_filterMap env.eng hWF
  intro m t hgt
  unfold_let at hgt
  split at hgt
  · exact absurd hgt (by simp)
  · cases hgt
    exact ⟨rfl, keysNeSpan5 "masked" "replacement" "preview" "entropy" "reason"
      _ _ _ _ _ (by decide) (by decide) (by decide) (by decide) (by decide)⟩

/-- Spans of the OpenAI key scanner. -/
theorem scan_openai_keys_ok (env : DetectorEnv) (hWF : env.eng.SpanWF)
    (text : PyStr) :
    ∀ t ∈ Secrets.scan_openai_keys env text, TupleOk text t := by
  unfold Secrets.scan_openai_keys
  apply tupleOk_of_map env.eng hWF
  intro m
  exact ⟨rfl, keysNeSpan4 "masked" "replacement" "preview" "reason" _ _ _ _
    (by decide) (by decide) (by decide) (by decide)⟩

/-- Spans of the placeholder token scanners. -/
theorem matches_with_placeholder_ok (env : DetectorEnv) (hWF : env.eng.SpanWF)
    (pat : Pat) (text : PyStr) (tok : String) :
    ∀ t ∈ Secrets.matches_with_placeholder env pat text tok, TupleOk text t := by
  unfold Secrets.matches_with_placeholder
  apply tupleOk_of_map env.eng hWF
  intro m
  exact ⟨rfl, keysNeSpan4 "masked" "replacement" "preview" "reason" _ _ _ _
    (by decide) (by decide) (by decide) (by decide)⟩

/-- Spans of the PEM block scanner. -/
theorem scan_pem_blocks_ok (env : DetectorEnv) (hWF : env.eng.SpanWF)
    (text : PyStr) :
    ∀ t ∈ Secrets.scan_pem_blocks env text, TupleOk text t := by
  unfold Secrets.scan_pem_blocks
  apply tupleOk_of_map env.eng hWF
  intro m
  exact ⟨rfl, keysNeSpan4 "masked" "replacement" "preview" "reason" _ _ _ _
    (by decide) (by decide) (by decide) (by decide)⟩

/-- Spans of the GCP service-account scanner. -/
theorem scan_gcp_service_accounts_ok (env : DetectorEnv) (hWF : env.eng.SpanWF)
    (text : PyStr) :
    ∀ t ∈ Secrets.scan_gcp_service_accounts env text, TupleOk text t := by
  unfold Secrets.scan_gcp_service_accounts
  apply tupleOk_of_map env.eng hWF
  intro m
  exact ⟨rfl, keysNeSpan4 "masked" "replacement" "preview" "reason" _ _ _ _
    (by decide) (by decide) (by decide) (by decide)⟩

/-- Spans of the high-entropy loop: every emitted tuple takes its span from
one of the input matches. -/
theorem scanHighEntropyGo_ok (env : DetectorEnv) (text : PyStr) :
    ∀ (ms : List ReMatch),
      (∀ m ∈ ms, m.start ≤ m.stop ∧ m.stop ≤ text.length) →
      ∀ seen : List PyStr,
        ∀ t ∈ Secrets.scanHighEntropyGo env ms seen, TupleOk text t := by
  intro ms
  induction ms with
  | nil => intro _ seen t ht; simp [Secrets.scanHighEntropyGo] at ht
  | cons m rest ih =>
    intro hms seen t ht
    have hm := hms m (List.mem_cons_self _ _)
    have hrest := fun x hx => hms x (List.mem_cons_of_mem _ hx)
    rw [Secrets.scanHighEntropyGo] at ht
    unfold_let at ht
    split_ifs at ht
    all_goals
      try exact ih hrest _ t ht
    all_goals
      rcases List.mem_cons.mp ht with rfl | ht2
      · exact ⟨hm.1, hm.2,
          keysNeSpan5 "masked" "replacement" "preview" "entropy" "reason"
            _ _ _ _ _ (by decide) (by decide) (by decide) (by decide) (by decide)⟩
      · exact ih hrest _ t ht2

/-- Spans of the high-entropy scanner. -/
theorem scan_high_entropy_tokens_ok (env : DetectorEnv) (hWF : env.eng.SpanWF)
    (text : PyStr) :
    ∀ t ∈ Secrets.scan_high_entropy_tokens env text, TupleOk text t := by
  unfold Secrets.scan_high_entropy_tokens
  apply scanHighEntropyGo_ok env text _ _
  intro m hm
  obtain ⟨h1, h2, _⟩ := hWF Pat.genericTokenRegex text m hm
  exact ⟨h1, h2⟩

/-- Every entry of the secrets scanners dict produces well-formed tuples. -/
theorem secrets_scannersTable_ok (env : DetectorEnv) (hWF : env.eng.SpanWF)
    (text : PyStr) :
    ∀ sc ∈ Secrets.scannersTable, ∀ t ∈ sc.2 env text, TupleOk text t := by
  intro sc hsc
  fin_cases hsc
  · exact scan_jwt_ok env hWF text
  · exact scan_aws_access_keys_ok env hWF text
  · exact scan_aws_secret_keys_ok env hWF text
  · exact scan_openai_keys_ok env hWF text
  · exact matches_with_placeholder_ok env hWF _ text _
  · exact matches_with_placeholder_ok env hWF _ text _
  · exact matches_with_placeholder_ok env hWF _ text _
  · exact matches_with_placeholder_ok env hWF _ text _
  · exact matches_with_placeholder_ok env hWF _ text _
  · exact scan_gcp_service_accounts_ok env hWF text
  · exact scan_pem_blocks_ok env hWF text
  · exact scan_high_entropy_tokens_ok env hWF text

/-- The secrets scanner dispatch only produces well-formed tuples. -/
theorem secrets_run_scanner_ok (env : DetectorEnv) (hWF : env.eng.SpanWF)
    (rule : Policy.PolicyRule) (text : PyStr) (ms : List Detectors.MatchTuple)
    (h : Secrets.run_scanner env rule text = Except.ok ms) :
    ∀ t ∈ ms, TupleOk text t := by
  unfold Secrets.run_scanner at h
  rcases hp : rule.pattern with _ | p
  · rw [hp] at h
    injection h with h2
    subst h2
    rcases hf : Secrets.scannersTable.find? (fun sc => sc.1 = rule.kind.getD "")
        with _ | sc
    · rw [hf]
      intro t ht
      simp at ht
    · rw [hf]
      exact secrets_scannersTable_ok env hWF text sc (List.mem_of_find?_eq_some hf)
  · rw [hp] at h
    dsimp only at h
    split_ifs at h
    cases h
    exact secrets_regex_matches_ok env hWF _ text

/-- Spans of the secret detector's findings. -/
theorem secrets_scan_spans (env : DetectorEnv) (hWF : env.eng.SpanWF)
    (text : PyStr) (policy : Policy.PolicyDefinition) (md : Detectors.Metadata)
    (fs : List Finding)
    (h : Secrets.scan env text policy md = Except.ok fs) :
    ∀ f ∈ fs, FindingSpanOk text f := by
  unfold Secrets.scan at h
  revert fs
  generalize policy.iter_rules "secret" = rules
  induction rules with
  | nil =>
    intro fs h
    rw [Secrets.scanRules] at h
    cases h
    intro f hf
    simp at hf
  | cons rule rest ih =>
    intro fs h
    rw [Secrets.scanRules] at h
    rcases hr : Secrets.run_scanner env rule text with e | ms
    · rw [hr] at h
      cases h
    · rw [hr] at h
      rcases ht : Secrets.scanRules env text policy md rest with e | tail
      · rw [ht] at h
        cases h
      · rw [ht] at h
        cases h
        intro f hf
        rcases List.mem_append.mp hf with hf1 | hf2
        · exact build_findings_span env policy rule md text ms
            (secrets_run_scanner_ok env hWF rule text ms hr) f hf1
        · exact ih tail ht f hf2

/-- Spans of the url custom-pattern matcher. -/
theorem url_regex_matches_ok (env : DetectorEnv) (hWF : env.eng.SpanWF)
    (pat : Pat) (text : PyStr) :
    ∀ t ∈ Url.regex_matches env pat text, TupleOk text t := by
  unfold Url.regex_matches
  apply tupleOk_of_map env.eng hWF
  intro m
  exact ⟨rfl, keysNeSpan4 "masked" "replacement" "preview" "reason" _ _ _ _
    (by decide) (by decide) (by decide) (by decide)⟩

/-- Spans of the ip-url scanner. -/
theorem scan_ip_urls_ok (env : DetectorEnv) (hWF : env.eng.SpanWF)
    (text : PyStr) :
    ∀ t ∈ Url.scan_ip_urls env text, TupleOk text t := by
  unfold Url.scan_ip_urls
  apply tupleOk_of_filterMap env.eng hWF
  intro m t hgt
  split at hgt
  · exact absurd hgt (by simp)
  · cases hgt
    exact ⟨rfl, keysNeSpan4 "masked" "replacement" "preview" "reason" _ _ _ _
      (by decide) (by decide) (by decide) (by decide)⟩

/-- Spans of the data-url scanner. -/
theorem scan_data_urls_ok (env : DetectorEnv) (hWF : env.eng.SpanWF)
    (text : PyStr) :
    ∀ t ∈ Url.scan_data_urls env text, TupleOk text t := by
  unfold Url.scan_data_urls
  apply tupleOk_of_map env.eng hWF
  intro m
  exact ⟨rfl, keysNeSpan4 "masked" "replacement" "preview" "reason" _ _ _ _
    (by decide) (by decide) (by decide) (by decide)⟩

/-- Spans of the executable-url scanner. -/
theorem scan_executable_urls_ok (env : DetectorEnv) (hWF : env.eng.SpanWF)
    (text : PyStr) :
    ∀ t ∈ Url.scan_executable_urls env text, TupleOk text t := by
  unfold Url.scan_executable_urls
  apply tupleOk_of_map env.eng hWF
  intro m
  exact ⟨rfl, keysNeSpan4 "masked" "replacement" "preview" "reason" _ _ _ _
    (by decide) (by decide) (by decide) (by decide)⟩

/-- Spans of the credential-url scanner. -/
theorem scan_credential_urls_ok (env : DetectorEnv) (hWF : env.eng.SpanWF)
    (text : PyStr) :
    ∀ t ∈ Url.scan_credential_urls env text, TupleOk text t := by
  unfold Url.scan_credential_urls
  apply tupleOk_of_map env.eng hWF
  intro m
  exact ⟨rfl, keysNeSpan4 "masked" "replacement" "preview" "reason" _ _ _ _
    (by decide) (by decide) (by decide) (by decide)⟩

/-- Spans of the shortener scanner. -/
theorem scan_shorteners_ok (env : DetectorEnv) (hWF : env.eng.SpanWF)
    (text : PyStr) :
    ∀ t ∈ Url.scan_shorteners env text, TupleOk text t := by
  unfold Url.scan_shorteners
  apply tupleOk_of_filterMap env.eng hWF
  intro m t hgt
  rcases hh : Url.extract_hostname env m.value with _ | hostname
  · rw [hh] at hgt
    exact absurd hgt (by simp)
  · rw [hh] at hgt
    dsimp only at hgt
    split at hgt
    · cases hgt
      exact ⟨rfl, keysNeSpan4 "masked" "replacement" "preview" "reason" _ _ _ _
        (by decide) (by decide) (by decide) (by decide)⟩
    · exact absurd hgt (by simp)

/-- Spans of the suspicious-TLD scanner. -/
theorem scan_suspicious_tld_ok (env : DetectorEnv) (hWF : env.eng.SpanWF)
    (text : PyStr) :
    ∀ t ∈ Url.scan_suspicious_tld env text, TupleOk text t := by
  unfold Url.scan_suspicious_tld
  apply tupleOk_of_filterMap env.eng hWF
  intro m t hgt
  rcases hh : Url.extract_hostname env m.value with _ | hostname
  · rw [hh] at hgt
    exact absurd hgt (by simp)
  · rw [hh] at hgt
    dsimp only at hgt
    split at hgt
    · cases hgt
      exact ⟨rfl, keysNeSpan4 "masked" "replacement" "preview" "reason" _ _ _ _
        (by decide) (by decide) (by decide) (by decide)⟩
    · exact absurd hgt (by simp)

/-- Every entry of the url scanners dict produces well-formed tuples. -/
theorem url_scannersTable_ok (env : DetectorEnv) (hWF : env.eng.SpanWF)
    (text : PyStr) :
    ∀ sc ∈ Url.scannersTable, ∀ t ∈ sc.2 env text, TupleOk text t := by
  intro sc hsc
  fin_cases hsc
  · exact scan_ip_urls_ok env hWF text
  · exact scan_ip_urls_ok env hWF text
  · exact scan_data_urls_ok env hWF text
  · exact scan_data_urls_ok env hWF text
  · exact scan_executable_urls_ok env hWF text
  · exact scan_executable_urls_ok env hWF text
  · exact scan_credential_urls_ok env hWF text
  · exact scan_shorteners_ok env hWF text
  · exact scan_suspicious_tld_ok env hWF text

/-- The url scanner dispatch only produces well-formed tuples. -/
theorem url_run_scanner_ok (env : DetectorEnv) (hWF : env.eng.SpanWF)
    (rule : Policy.PolicyRule) (text : PyStr) (ms : List Detectors.MatchTuple)
    (h : Url.run_scanner env rule text = Except.ok ms) :
    ∀ t ∈ ms, TupleOk text t := by
  unfold Url.run_scanner at h
  rcases hp : rule.pattern with _ | p
  · rw [hp] at h
    injection h with h2
    subst h2
    rcases hf : Url.scannersTable.find? (fun sc => sc.1 = rule.kind.getD "")
        with _ | sc
    · rw [hf]
      intro t ht
      simp at ht
    · rw [hf]
      exact url_scannersTable_ok env hWF text sc (List.mem_of_find?_eq_some hf)
  · rw [hp] at h
    dsimp only at h
    split_ifs at h
    cases h
    exact url_regex_matches_ok env hWF _ text

/-- Spans of the url detector's findings. -/
theorem url_scan_spans (env : DetectorEnv) (hWF : env.eng.SpanWF)
    (text : PyStr) (policy : Policy.PolicyDefinition) (md : Detectors.Metadata)
    (fs : List Finding)
    (h : Url.scan env text policy md = Except.ok fs) :
    ∀ f ∈ fs, FindingSpanOk text f := by
  unfold Url.scan at h
  revert fs
  generalize policy.iter_rules "url" = rules
  induction rules with
  | nil =>
    intro fs h
    rw [Url.scanRules] at h
    cases h
    intro f hf
    simp at hf
  | cons rule rest ih =>
    intro fs h
    rw [Url.scanRules] at h
    rcases hr : Url.run_scanner env rule text with e | ms
    · rw [hr] at h
      cases h
    · rw [hr] at h
      rcases ht : Url.scanRules env text policy md rest with e | tail
      · rw [ht] at h
        cases h
      · rw [ht] at h
        cases h
        intro f hf
        rcases List.mem_append.mp hf with hf1 | hf2
        · exact build_findings_span env policy rule md text ms
            (url_run_scanner_ok env hWF rule text ms hr) f hf1
        · exact ih tail ht f hf2

/-- Spans of the cmd custom-pattern matcher. -/
theorem cmd_regex_matches_ok (env : DetectorEnv) (hWF : env.eng.SpanWF)
    (pat : Pat) (text : PyStr) :
    ∀ t ∈ Cmd.regex_matches env pat text, TupleOk text t := by
  unfold Cmd.regex_matches
  apply tupleOk_of_map env.eng hWF
  intro m
  exact ⟨rfl, keysNeSpan4 "masked" "replacement" "preview" "reason" _ _ _ _
    (by decide) (by decide) (by decide) (by decide)⟩

/-- Spans of the reason-tagged cmd scanners. -/
theorem cmd_matches_with_reason_ok (env : DetectorEnv) (hWF : env.eng.SpanWF)
    (pat : Pat) (text : PyStr) (reason : String) :
    ∀ t ∈ Cmd.matches_with_reason env pat text reason, TupleOk text t := by
  unfold Cmd.matches_with_reason
  apply tupleOk_of_map env.eng hWF
  intro m
  exact ⟨rfl, keysNeSpan4 "masked" "replacement" "preview" "reason" _ _ _ _
    (by decide) (by decide) (by decide) (by decide)⟩

/-- Every entry of the cmd scanners dict produces well-formed tuples. -/
theorem cmd_scannersTable_ok (env : DetectorEnv) (hWF : env.eng.SpanWF)
    (text : PyStr) :
    ∀ sc ∈ Cmd.scannersTable, ∀ t ∈ sc.2 env text, TupleOk text t := by
  intro sc hsc
  fin_cases hsc
  all_goals exact cmd_matches_with_reason_ok env hWF _ text _

/-- The cmd scanner dispatch only produces well-formed tuples. -/
theorem cmd_run_scanner_ok (env : DetectorEnv) (hWF : env.eng.SpanWF)
    (rule : Policy.PolicyRule) (text : PyStr) (ms : List Detectors.MatchTuple)
    (h : Cmd.run_scanner env rule text = Except.ok ms) :
    ∀ t ∈ ms, TupleOk text t := by
  unfold Cmd.run_scanner at h
  rcases hp : rule.pattern with _ | p
  · rw [hp] at h
    injection h with h2
    subst h2
    rcases hf : Cmd.scannersTable.find? (fun sc => sc.1 = rule.kind.getD "")
        with _ | sc
    · rw [hf]
      intro t ht
      simp at ht
    · rw [hf]
      exact cmd_scannersTable_ok env hWF text sc (List.mem_of_find?_eq_some hf)
  · rw [hp] at h
    dsimp only at h
    split_ifs at h
    cases h
    exact cmd_regex_matches_ok env hWF _ text

/-- Spans of the cmd detector's findings. -/
theorem cmd_scan_spans (env : DetectorEnv) (hWF : env.eng.SpanWF)
    (text : PyStr) (policy : Policy.PolicyDefinition) (md : Detectors.Metadata)
    (fs : List Finding)
    (h : Cmd.scan env text policy md = Except.ok fs) :
    ∀ f ∈ fs, FindingSpanOk text f := by
  unfold Cmd.scan at h
  revert fs
  generalize policy.iter_rules "cmd" = rules
  induction rules with
  | nil =>
    intro fs h
    rw [Cmd.scanRules] at h
    cases h
    intro f hf
    simp at hf
  | cons rule rest ih =>
    intro fs h
    rw [Cmd.scanRules] at h
    rcases hr : Cmd.run_scanner env rule text with e | ms
    · rw [hr] at h
      cases h
    · rw [hr] at h
      rcases ht : Cmd.scanRules env text policy md rest with e | tail
      · rw [ht] at h
        cases h
      · rw [ht] at h
        cases h
        intro f hf
        rcases List.mem_append.mp hf with hf1 | hf2
        · exact build_findings_span env policy rule md text ms
            (cmd_run_scanner_ok env hWF rule text ms hr) f hf1
        · exact ih tail ht f hf2

/-- C5 amended: under a span-well-formed regex engine, every finding emitted
by any detector of the registry carries a span [a, b] in its detail with
0 ≤ a ≤ b ≤ len(text); the strict inequality a < b of the original claim
holds only for non-empty matches and fails for a custom rule pattern that can
match the empty string (see the counterexample). -/
theorem scan_all_spans_wf (env : DetectorEnv) (hWF : env.eng.SpanWF)
    (content : PyStr) (policy : Policy.PolicyDefinition)
    (md : Detectors.Metadata) :
    ∀ b ∈ Detectors.scan_all env content policy md, ∀ fs, b.2 = Except.ok fs →
      ∀ f ∈ fs, FindingSpanOk content f := by
  intro b hb fs hfs f hf
  simp only [Detectors.scan_all, List.mem_cons, List.not_mem_nil, or_false] at hb
  rcases hb with rfl | rfl | rfl | rfl | rfl
  · injection hfs with h2
    subst h2
    exact pii_scan_spans env hWF content policy md f hf
  · injection hfs with h2
    subst h2
    exact exfil_scan_spans env hWF content policy md f hf
  · exact secrets_scan_spans env hWF content policy md fs hfs f hf
  · exact url_scan_spans env hWF content policy md fs hfs f hf
  · exact cmd_scan_spans env hWF content policy md fs hfs f hf

/-- The no-match engine is span-well-formed. -/
theorem emptyEngine_SpanWF : emptyEngine.SpanWF := by
  intro pat text m hm
  simp [emptyEngine] at hm

/-- The counterexample engine is span-well-formed: its only matches are the
empty matches of the pattern "x*" at positions 0..len of an x-free text. -/
theorem cexEngine_SpanWF : cexEngine.SpanWF := by
  intro pat text m hm
  unfold cexEngine at hm
  dsimp only at hm
  split at hm
  · split at hm
    · obtain ⟨i, hi, rfl⟩ := List.mem_map.mp hm
      exact ⟨le_refl i, Nat.lt_succ_iff.mp (List.mem_range.mp hi), by simp⟩
    · simp at hm
  · simp at hm

/-- Witness for the amended C5 at a concrete input: every finding of the cmd
batch produced by the empty-matching custom pattern "x*" on "ab" has a
well-formed (here empty) span. -/
theorem scan_all_spans_wf_witness :
    cexC5findings.Forall (FindingSpanOk ['a', 'b']) := by
  rw [List.forall_iff_forall_mem]
  intro f hf
  exact scan_all_spans_wf cexEnv cexEngine_SpanWF ['a', 'b'] cexPolicyEmptyMatch []
    ("cmd", Cmd.scan cexEnv ['a', 'b'] cexPolicyEmptyMatch [])
    (by simp [Detectors.scan_all]) cexC5findings rfl f hf

/-- C5 counterexample: a cmd rule with the custom pattern "x*" (which matches
the empty string) produces findings whose detail span is [0, 0] — start equals
end, violating the strict half-open-span claim — even though the engine is
span-well-formed. -/
theorem custom_pattern_empty_span_cex :
    Cmd.scan cexEnv ['a', 'b'] cexPolicyEmptyMatch [] =
      Except.ok cexC5findings ∧
    cexC5findings ≠ [] ∧
    (∃ f ∈ cexC5findings,
      dget f.detail "span" = Option.some (DVal.span 0 0)) := by
  refine ⟨rfl, by decide, by decide⟩

end Guard
